import Mathlib

/-!
Verification development for the `pc_gb` Game Boy emulator core
(`src/GB.h`, `src/GBOpcodes.h`, `src/main.c`).

The machine state `GB` mirrors `struct GBstruct`: the 16-bit register
array `regs` (BC=0, DE=1, HL=2, SP=3, PC=4, AF=7), the `IME` and `halted`
booleans, the upper 32 KiB memory array `mem` (index = guest address -
0x8000), the cartridge image `cart` with `cartSize`, and the boot ROM.
Machine integers are modelled as `Nat` with explicit `% 256` / `% 65536`
at the points where the C code converts to `uint8_t` / `uint16_t`
(parameter passing, return values, and arithmetic on unsigned fields).
The extra `writes` field records the sequence of `WriteMem` calls issued
(address, value), most recent first; it captures the bus-write trace that
the C code performs by side effect and is read by no modelled code path.

Array stores are modelled with `updFn` on `Nat → Nat` maps; an
out-of-bounds store in C (undefined behavior) lands on an index that no
modelled read ever looks at.
-/

namespace PcGb

/-- Pointwise update of a `Nat`-indexed store. -/
def updFn (f : Nat → Nat) (i v : Nat) : Nat → Nat :=
  fun j => if j = i then v else f j

/-- C bool-to-integer conversion (used where the source passes a
comparison result as a `uint8_t` argument). -/
def b2n (b : Bool) : Nat := if b then 1 else 0

/-- The emulator state, from `struct GBstruct` in GB.h (the SDL render
context is presentation-layer state outside the modelled core). -/
structure GB where
  /-- Field `uint16_t regs[8]`: BC[0], DE[1], HL[2], SP[3], PC[4], AF[7]. -/
  regs : Nat → Nat
  /-- Interrupt Master Enable flag. -/
  IME : Bool
  halted : Bool
  /-- Field `uint8_t mem[0x8000]`, index = guest address - 0x8000. -/
  mem : Nat → Nat
  /-- cartridge bytes (`uint8_t *cart`). -/
  cart : Nat → Nat
  cartSize : Nat
  /-- boot ROM bytes (`uint8_t *bootRom`). -/
  bootRom : Nat → Nat
  /-- trace of WriteMem calls `(addr, val)`, most recent first. -/
  writes : List (Nat × Nat)

/-- Function `ReadMem` (GB.h lines 232-254).  The argument is truncated to 16 bits
(the `uint16_t addr` parameter) and the result to 8 bits (the `uint8_t`
return type and the `uint8_t` element types of all backing arrays). -/
def readMem (gb : GB) (a : Nat) : Nat :=
  let addr := a % 65536
  (if 0x8000 ≤ addr then gb.mem (addr - 0x8000)
   else if addr ≤ 0xFF ∧ gb.mem (0xFF50 - 0x8000) % 256 = 0 then
     gb.bootRom (addr % 0x100)
   else if 0x4000 ≤ addr ∧ addr ≤ 0x7FFF then
     let bank := (gb.mem 0x2000 % 256) &&& 0b11111
     -- C computes `addr + (bank - 1) * 0x4000` in `int`; for `bank = 0`
     -- that is `addr - 0x4000` (addr ≥ 0x4000, so non-negative).
     gb.cart ((if bank = 0 then addr - 0x4000
               else addr + (bank - 1) * 0x4000) % gb.cartSize)
   else gb.cart addr) % 256

/-- Function `WriteMemRomOnly` (GB.h lines 256-269). -/
def writeMemRomOnly (gb : GB) (a v : Nat) : GB :=
  let addr := a % 65536
  let val := v % 256
  if 0x8000 ≤ addr then
    if addr = 0xFF44 then {gb with mem := updFn gb.mem (addr - 0x8000) 0}
    else {gb with mem := updFn gb.mem (addr - 0x8000) val}
  else gb

/-- Cartridge type byte values for header offset $0147.
Modelled from the spec: the `CART_TYPE_*` macros used by `WriteMem` are
not among the provided sources; §4.1 of the spec fixes them as
ROM_ONLY=$00, MBC1=$01, MBC1+RAM=$02, MBC1+RAM+BATTERY=$03, MBC2=$05,
MBC2+BATTERY=$06. -/
def CART_TYPE_ROM_ONLY : Nat := 0x00

/-- Function `WriteMem` (GB.h lines 301-366): dispatch on the cartridge type byte.
The MBC write handlers in the source all execute `assert(false)` ("Not
Implemented!"); they are modelled as performing no store.  The `writes`
trace records every call. -/
def writeMem (gb0 : GB) (a v : Nat) : GB :=
  let gb := {gb0 with writes := (a % 65536, v % 256) :: gb0.writes}
  if gb0.cart 0x147 % 256 = CART_TYPE_ROM_ONLY then writeMemRomOnly gb a v
  else gb

/-- Function `FetchByte` (GB.h lines 522-526): `PC += 1; return ReadMem(PC - 1)`.
`PC - 1` is computed in `int` and truncated by the `uint16_t` parameter
of `ReadMem`, hence the `+ 65535`. -/
def fetchByte (gb : GB) : Nat × GB :=
  let gb' := {gb with regs := updFn gb.regs 4 ((gb.regs 4 + 1) % 65536)}
  (readMem gb' (gb'.regs 4 + 65535), gb')

/-- Function `FetchWord` (GB.h lines 528-531): low byte fetched first (the C
expression `FetchByte(gb) | (FetchByte(gb) << 8)` has unspecified
evaluation order; left-to-right is the little-endian reading the rest of
the code relies on). -/
def fetchWord (gb : GB) : Nat × GB :=
  let p1 := fetchByte gb
  let p2 := fetchByte p1.2
  (p1.1 ||| (p2.1 <<< 8), p2.2)

/-- Function `Set8Reg` (GB.h lines 533-548).  `reg` uses the 8-bit register
encoding B=0, C=1, D=2, E=3, H=4, L=5, A=7; even encodings (and A) live
in the high byte of the 16-bit pair. -/
def set8Reg (gb : GB) (reg v : Nat) : GB :=
  let val := v % 256
  let index := if reg = 7 then 7 else reg / 2
  if reg % 2 = 0 ∨ reg = 7 then
    {gb with regs := updFn gb.regs index ((gb.regs index &&& 0x00FF) ||| (val <<< 8))}
  else
    {gb with regs := updFn gb.regs index ((gb.regs index &&& 0xFF00) ||| val)}

/-- Function `Get8Reg` (GB.h lines 550-562). -/
def get8Reg (gb : GB) (reg : Nat) : Nat :=
  let index := if reg = 7 then 7 else reg / 2
  let val := gb.regs index
  (if reg % 2 = 0 ∨ reg = 7 then val >>> 8 else val) &&& 0xFF

/-- Function `SetFlag` (GB.h lines 638-681).  Flag numbers FLAG_Z=1, FLAG_C=3,
FLAG_N=4, FLAG_H=5 select bit masks 0x80/0x10/0x40/0x20 of AF; any other
flag number hits `assert(false); return` and changes nothing.
`regs[REG_AF] &= ~mask` on a `uint16_t` is `&&& (65535 - mask)` (single
bit masks). -/
def setFlag (gb : GB) (flag v : Nat) : GB :=
  if flag = 1 ∨ flag = 3 ∨ flag = 4 ∨ flag = 5 then
    let mask : Nat :=
      if flag = 1 then 0x80 else if flag = 3 then 0x10
      else if flag = 4 then 0x40 else 0x20
    if 0 < v % 256 then
      {gb with regs := updFn gb.regs 7 (gb.regs 7 ||| mask)}
    else
      {gb with regs := updFn gb.regs 7 (gb.regs 7 &&& (65535 - mask))}
  else gb

/-- Function `CheckFlag` (GB.h lines 683-716).  Flag numbers FLAG_NZ=0, FLAG_Z=1,
FLAG_NC=2, FLAG_C=3.  As in the source, the NC/C cases test bit 3 of AF
(not bit 4), and the C case `(regs[REG_AF] & 0x8) >= 0` is an unsigned
comparison that always holds; other flag numbers hit `assert(false)`
(modelled as `false`). -/
def checkFlag (gb : GB) (flag : Nat) : Bool :=
  if flag = 0 then gb.regs 7 &&& 0x80 == 0
  else if flag = 1 then decide (0 < gb.regs 7 &&& 0x80)
  else if flag = 2 then gb.regs 7 &&& 0x8 == 0
  else if flag = 3 then decide (0 ≤ gb.regs 7 &&& 0x8)
  else false

/-- Function `CheckInterrupt` (GB.h lines 718-731): if IME and the mask bit is set
in both IE ($FFFF) and IF ($FF0F), clear the bit in IF and report true.
`iflag & ~mask` on a `uint8_t` is `&&& (255 - mask)` (single-bit masks).
Note: IME is NOT cleared here (nor in `CallInterrupt`). -/
def checkInterrupt (gb : GB) (mask : Nat) : Bool × GB :=
  let ienable := readMem gb 0xFFFF
  let iflag := readMem gb 0xFF0F
  if gb.IME ∧ 0 < ienable &&& mask ∧ 0 < iflag &&& mask then
    (true, writeMem gb 0xFF0F (iflag &&& (255 - mask)))
  else (false, gb)

/-- Function `Push16` (GB.h lines 733-738): `SP -= 2` first, then the high byte is
written to SP+1 (= old SP - 1) and the low byte to SP+2 (= old SP). -/
def push16 (gb : GB) (v : Nat) : GB :=
  let val := v % 65536
  let gb1 := {gb with regs := updFn gb.regs 3 ((gb.regs 3 + 65534) % 65536)}
  let gb2 := writeMem gb1 (gb1.regs 3 + 1) ((val &&& 0xFF00) >>> 8)
  writeMem gb2 (gb2.regs 3 + 2) (val &&& 0xFF)

/-- Function `CallInterrupt` (GB.h lines 740-746): push PC, jump to the vector,
wake the CPU.  IME is left unchanged. -/
def callInterrupt (gb : GB) (vector : Nat) : GB :=
  let gb1 := push16 gb (gb.regs 4)
  let gb2 := {gb1 with regs := updFn gb1.regs 4 vector}
  {gb2 with halted := false}

/-- Function `Pop16` (GB.h lines 748-755): `SP += 2`, then low byte from SP and
high byte from SP-1 (passed through the `uint16_t` parameter, hence
`+ 65535`). -/
def pop16 (gb : GB) : Nat × GB :=
  let gb1 := {gb with regs := updFn gb.regs 3 ((gb.regs 3 + 2) % 65536)}
  let v := readMem gb1 (gb1.regs 3)
  (v ||| (readMem gb1 (gb1.regs 3 + 65535) <<< 8), gb1)

/-! ### Opcode dispatch guards (the `instr_*` macros of GB.h) -/

/-- Macro `instr_ld_r_r(opcode, base, shift)`. -/
def instrLdRR (op base shift : Nat) : Bool :=
  (op &&& base == base)
  && (decide ((op >>> shift) &&& 0b111 ≤ 7) && ((op >>> shift) &&& 0b111 != 6))
  && (decide (op &&& 0b111 ≤ 7) && (op &&& 0b111 != 6))

/-- Macro `instr_left_r(opcode, base, shift)`. -/
def instrLeftR (op base shift : Nat) : Bool :=
  (op &&& base == base)
  && (decide ((op >>> shift) &&& 0b111 ≤ 7) && ((op >>> shift) &&& 0b111 != 6))

/-- Macro `instr_left_f(opcode, base, shift)`. -/
def instrLeftF (op base shift : Nat) : Bool :=
  (op &&& base == base) && decide ((op >>> shift) &&& 0b11 ≤ 3)

/-- Macro `instr_right_r(opcode, base)`. -/
def instrRightR (op base : Nat) : Bool :=
  (op &&& base == base) && (decide (op &&& 0b111 ≤ 7) && (op &&& 0b111 != 6))

/-- Macro `instr_bit(opcode)` — note `(opcode >> 3 & 0b111) >= 0x8` can never
hold, so this guard is identically false. -/
def instrBit (op : Nat) : Bool :=
  (op &&& 0x40 == 0x40)
  && decide (0x8 ≤ (op >>> 3) &&& 0b111) && decide ((op >>> 3) &&& 0b111 < 0xF)
  && (decide (op &&& 0b111 ≤ 7) && (op &&& 0b111 != 6))

/-- Macro `instr_res_bit(opcode)` — note `(opcode & 0x0) == 0x80` can never
hold, so this guard is identically false. -/
def instrResBit (op : Nat) : Bool :=
  (op &&& 0x0 == 0x80)
  && decide (0x8 ≤ (op >>> 3) &&& 0b111) && decide ((op >>> 3) &&& 0b111 < 0xF)
  && (decide (op &&& 0b111 ≤ 7) && (op &&& 0b111 != 6))

/-- Macro `instr_rst(opcode)`. -/
def instrRst (op : Nat) : Bool :=
  (op &&& 0xC7 == 0xC7) && decide (op &&& 0b111 ≤ 7)

/-! ### Instruction branch bodies of `DoInstruction` (GB.h lines 866-1621),
one definition per `instr*` branch, in source order.  Each body receives
the state after the opcode fetch. -/

/-- Branch "ld (nn), sp" (0x08), lines 881-887.  `uint8_t addr = FetchWord(gb)`
truncates the operand to its low byte. -/
def iLdNNSP (g : GB) : GB :=
  let p := fetchWord g
  let addr := p.1 % 256
  let g1 := writeMem p.2 addr (p.2.regs 3 >>> 8)
  writeMem g1 (addr + 1) (g1.regs 3 &&& 0xFF)

/-- Branch "ld r,r", lines 889-895. -/
def iLdRR (g : GB) (op : Nat) : GB :=
  set8Reg g ((op >>> 3) &&& 0b111) (get8Reg g (op &&& 0b111))

/-- Branch "ld r,n", lines 897-903. -/
def iLdRn (g : GB) (op : Nat) : GB :=
  let p := fetchByte g
  set8Reg p.2 ((op >>> 3) &&& 0b111) p.1

/-- Branch "ld (de),a" (0x12), lines 905-908. -/
def iLdPtrDEA (g : GB) : GB :=
  writeMem g (g.regs 1) (get8Reg g 7)

/-- Branch "ld a,($FF00+n)" (0xF0), lines 910-914. -/
def iLdAIOn (g : GB) : GB :=
  let p := fetchByte g
  set8Reg p.2 7 (readMem p.2 (0xFF00 + p.1))

/-- Branch "ld ($FF00+n), a" (0xE0), lines 916-920. -/
def iLdIOnA (g : GB) : GB :=
  let p := fetchByte g
  writeMem p.2 (0xFF00 + p.1) (get8Reg p.2 7)

/-- Branch "ld ($FF00+c), a" (0xE2), lines 922-926. -/
def iLdIOCA (g : GB) : GB :=
  writeMem g (0xFF00 + get8Reg g 1) (get8Reg g 7)

/-- Branch "ldi a,(hl)" (0x2A), lines 928-935. -/
def iLdiAPtrHL (g : GB) : GB :=
  let g1 := set8Reg g 7 (readMem g (g.regs 2))
  {g1 with regs := updFn g1.regs 2 ((g1.regs 2 + 1) % 65536)}

/-- Branch "ldi (hl),a" (0x22), lines 937-943. -/
def iLdiPtrHLA (g : GB) : GB :=
  let g1 := writeMem g (g.regs 2) (get8Reg g 7)
  {g1 with regs := updFn g1.regs 2 ((g1.regs 2 + 1) % 65536)}

/-- Branch "ldd (hl),a" (0x32), lines 945-951. -/
def iLddPtrHLA (g : GB) : GB :=
  let g1 := writeMem g (g.regs 2) (get8Reg g 7)
  {g1 with regs := updFn g1.regs 2 ((g1.regs 2 + 65535) % 65536)}

/-- Branch "ld r,(hl)", lines 953-959. -/
def iLdRPtrHL (g : GB) (op : Nat) : GB :=
  set8Reg g ((op >>> 3) &&& 0b111) (readMem g (g.regs 2))

/-- Branch "ld (hl),r", lines 961-966. -/
def iLdPtrHLR (g : GB) (op : Nat) : GB :=
  writeMem g (g.regs 2) (get8Reg g (op &&& 0b111))

/-- Branch "ld (hl),n" (0x36), lines 968-972. -/
def iLdPtrHLn (g : GB) : GB :=
  let p := fetchByte g
  writeMem p.2 (p.2.regs 2) p.1

/-- Branch "ld a,(bc)" (0x0A), lines 974-979. -/
def iLdAPtrBC (g : GB) : GB :=
  set8Reg g 7 (readMem g (g.regs 0))

/-- Branch "ld a,(de)" (0x1A), lines 981-986. -/
def iLdAPtrDE (g : GB) : GB :=
  set8Reg g 7 (readMem g (g.regs 1))

/-- Branch "ld a,(nn)" (0xFA), lines 988-994.  `uint8_t addr = FetchWord(gb)`
truncates the operand to its low byte. -/
def iLdAPtrnn (g : GB) : GB :=
  let p := fetchWord g
  set8Reg p.2 7 (readMem p.2 (p.1 % 256))

/-- Branch "ld (bc),a" (0x02), lines 996-1000. -/
def iLdPtrBCA (g : GB) : GB :=
  writeMem g (g.regs 0) (get8Reg g 7)

/-- Branch "ld (nn),a" (0xEA), lines 1002-1007 (full 16-bit address here). -/
def iLdPtrnnA (g : GB) : GB :=
  let p := fetchWord g
  writeMem p.2 p.1 (get8Reg p.2 7)

/-- Branch "add a,r", lines 1010-1021. -/
def iAddAR (g : GB) (op : Nat) : GB :=
  let reg := op &&& 0b111
  let val := (get8Reg g 7 + get8Reg g reg) % 256
  let g1 := setFlag g 1 (b2n (val == 0))
  let g2 := setFlag g1 3 (b2n (decide (val < get8Reg g1 7)))
  let g3 := setFlag g2 4 0
  let g4 := setFlag g3 5 (b2n (decide (val &&& 0xF < get8Reg g3 7 &&& 0xF)))
  set8Reg g4 7 val

/-- Branch "add a,n" (0xC6), lines 1023-1034. -/
def iAddAn (g : GB) : GB :=
  let p := fetchByte g
  let newVal := (get8Reg p.2 7 + p.1) % 256
  let g1 := setFlag p.2 1 (b2n (newVal == 0))
  let g2 := setFlag g1 3 (b2n (decide (newVal < get8Reg g1 7)))
  let g3 := setFlag g2 4 0
  let g4 := setFlag g3 5 (b2n (decide (newVal &&& 0xF < get8Reg g3 7 &&& 0xF)))
  set8Reg g4 7 newVal

/-- Branch "adc a,r", lines 1036-1048.  The C carry-in `regs[REG_AF] & 0x8 >> 3`
parses as `regs[REG_AF] & (0x8 >> 3)`, i.e. bit 0 of AF. -/
def iAdcAR (g : GB) (op : Nat) : GB :=
  let reg := op &&& 0b111
  let val := (get8Reg g 7 + get8Reg g reg + (g.regs 7 &&& (0x8 >>> 3))) % 256
  let g1 := setFlag g 1 (b2n (val == 0))
  let g2 := setFlag g1 3 (b2n (decide (val < get8Reg g1 7)))
  let g3 := setFlag g2 4 0
  let g4 := setFlag g3 5 (b2n (decide (val &&& 0xF < get8Reg g3 7 &&& 0xF)))
  set8Reg g4 7 val

/-- Branch "add a,(hl)" (0x86), lines 1050-1061. -/
def iAddAPtrHL (g : GB) : GB :=
  let val := readMem g (g.regs 2)
  let newVal := (get8Reg g 7 + val) % 256
  let g1 := setFlag g 1 (b2n (newVal == 0))
  let g2 := setFlag g1 3 (b2n (decide (newVal < get8Reg g1 7)))
  let g3 := setFlag g2 4 0
  let g4 := setFlag g3 5 (b2n (decide (newVal &&& 0xF < get8Reg g3 7 &&& 0xF)))
  set8Reg g4 7 newVal

/-- Branch "adc a,(hl)" (0x8E), lines 1063-1075. -/
def iAdcAPtrHL (g : GB) : GB :=
  let val := readMem g (g.regs 2)
  let newVal := (get8Reg g 7 + val + (g.regs 7 &&& (0x8 >>> 3))) % 256
  let g1 := setFlag g 1 (b2n (newVal == 0))
  let g2 := setFlag g1 3 (b2n (decide (newVal < get8Reg g1 7)))
  let g3 := setFlag g2 4 0
  let g4 := setFlag g3 5 (b2n (decide (newVal &&& 0xF < get8Reg g3 7 &&& 0xF)))
  set8Reg g4 7 newVal

/-- Branch "sub a,r", lines 1077-1088 (8-bit wrap-around subtraction). -/
def iSubAR (g : GB) (op : Nat) : GB :=
  let reg := op &&& 0b111
  let val := (get8Reg g 7 + 256 - get8Reg g reg) % 256
  let g1 := setFlag g 1 (b2n (val == 0))
  let g2 := setFlag g1 3 (b2n (decide (get8Reg g1 7 < val)))
  let g3 := setFlag g2 4 1
  let g4 := setFlag g3 5 (b2n (decide (get8Reg g3 7 &&& 0xF < val &&& 0xF)))
  set8Reg g4 7 val

/-- Branch "sub a,n" (0xD6), lines 1090-1101. -/
def iSubAn (g : GB) : GB :=
  let p := fetchByte g
  let newVal := (get8Reg p.2 7 + 256 - p.1) % 256
  let g1 := setFlag p.2 1 (b2n (newVal == 0))
  let g2 := setFlag g1 3 (b2n (decide (get8Reg g1 7 < newVal)))
  let g3 := setFlag g2 4 1
  let g4 := setFlag g3 5 (b2n (decide (get8Reg g3 7 &&& 0xF < newVal &&& 0xF)))
  set8Reg g4 7 newVal

/-- Branch "sbc a,r", lines 1103-1115 (carry-in is `AF & (0x8 >> 3)`). -/
def iSbcAR (g : GB) (op : Nat) : GB :=
  let reg := op &&& 0b111
  let val := (get8Reg g 7 + 512 - get8Reg g reg - (g.regs 7 &&& (0x8 >>> 3))) % 256
  let g1 := setFlag g 1 (b2n (val == 0))
  let g2 := setFlag g1 3 (b2n (decide (get8Reg g1 7 < val)))
  let g3 := setFlag g2 4 1
  let g4 := setFlag g3 5 (b2n (decide (get8Reg g3 7 &&& 0xF < val &&& 0xF)))
  set8Reg g4 7 val

/-- Branch "sbc a,(hl)" (0x9E), lines 1117-1129. -/
def iSbcAPtrHL (g : GB) : GB :=
  let val := (get8Reg g 7 + 512 - readMem g (g.regs 2) - (g.regs 7 &&& (0x8 >>> 3))) % 256
  let g1 := setFlag g 1 (b2n (val == 0))
  let g2 := setFlag g1 3 (b2n (decide (get8Reg g1 7 < val)))
  let g3 := setFlag g2 4 1
  let g4 := setFlag g3 5 (b2n (decide (get8Reg g3 7 &&& 0xF < val &&& 0xF)))
  set8Reg g4 7 val

/-- Branch "and a,r", lines 1131-1141 (writeback precedes the flag updates). -/
def iAndAR (g : GB) (op : Nat) : GB :=
  let val := get8Reg g 7 &&& get8Reg g (op &&& 0b111)
  let g0 := set8Reg g 7 val
  let g1 := setFlag g0 1 (b2n (val == 0))
  let g2 := setFlag g1 3 0
  let g3 := setFlag g2 4 0
  setFlag g3 5 1

/-- Branch "and a,n" (0xE6), lines 1143-1153. -/
def iAndAn (g : GB) : GB :=
  let p := fetchByte g
  let newVal := get8Reg p.2 7 &&& p.1
  let g0 := set8Reg p.2 7 newVal
  let g1 := setFlag g0 1 (b2n (newVal == 0))
  let g2 := setFlag g1 3 0
  let g3 := setFlag g2 4 0
  setFlag g3 5 1

/-- Branch "or a,n" (0xF6), lines 1155-1165. -/
def iOrAn (g : GB) : GB :=
  let p := fetchByte g
  let newVal := get8Reg p.2 7 ||| p.1
  let g0 := set8Reg p.2 7 newVal
  let g1 := setFlag g0 1 (b2n (newVal == 0))
  let g2 := setFlag g1 3 0
  let g3 := setFlag g2 4 0
  setFlag g3 5 0

/-- Branch "or a,(hl)" (0xB6), lines 1167-1176. -/
def iOrAPtrHL (g : GB) : GB :=
  let newVal := get8Reg g 7 ||| readMem g (g.regs 2)
  let g0 := set8Reg g 7 newVal
  let g1 := setFlag g0 1 (b2n (newVal == 0))
  let g2 := setFlag g1 3 0
  let g3 := setFlag g2 4 0
  setFlag g3 5 0

/-- Branch "xor a,r", lines 1178-1187.  As in the source, the result is never
written back to A: only the flags change. -/
def iXorAR (g : GB) (op : Nat) : GB :=
  let val := get8Reg g 7 ^^^ get8Reg g (op &&& 0b111)
  let g1 := setFlag g 1 (b2n (val == 0))
  let g2 := setFlag g1 3 0
  let g3 := setFlag g2 4 0
  setFlag g3 5 0

/-- Branch "xor a,(hl)" (0xAE), lines 1189-1197 (also no writeback). -/
def iXorAPtrHL (g : GB) : GB :=
  let val := get8Reg g 7 ^^^ readMem g (g.regs 2)
  let g1 := setFlag g 1 (b2n (val == 0))
  let g2 := setFlag g1 3 0
  let g3 := setFlag g2 4 0
  setFlag g3 5 0

/-- Branch "or a,r", lines 1199-1209. -/
def iOrAR (g : GB) (op : Nat) : GB :=
  let val := get8Reg g 7 ||| get8Reg g (op &&& 0b111)
  let g0 := set8Reg g 7 val
  let g1 := setFlag g0 1 (b2n (val == 0))
  let g2 := setFlag g1 3 0
  let g3 := setFlag g2 4 0
  setFlag g3 5 0

/-- Branch "cp a,r", lines 1211-1220. -/
def iCpAR (g : GB) (op : Nat) : GB :=
  let reg := op &&& 0b111
  let val := (get8Reg g 7 + 256 - get8Reg g reg) % 256
  let g1 := setFlag g 1 (b2n (val == 0))
  let g2 := setFlag g1 3 (b2n (decide (get8Reg g1 7 < val)))
  let g3 := setFlag g2 4 1
  setFlag g3 5 (b2n (decide (get8Reg g3 7 &&& 0xF < val &&& 0xF)))

/-- Branch "cp a,n" (0xFE), lines 1222-1231. -/
def iCpAn (g : GB) : GB :=
  let p := fetchByte g
  let newVal := (get8Reg p.2 7 + 256 - p.1) % 256
  let g1 := setFlag p.2 1 (b2n (newVal == 0))
  let g2 := setFlag g1 3 (b2n (decide (get8Reg g1 7 < newVal)))
  let g3 := setFlag g2 4 1
  setFlag g3 5 (b2n (decide (get8Reg g3 7 &&& 0xF < newVal &&& 0xF)))

/-- Branch "cp a,(hl)" (0xBE), lines 1233-1242. -/
def iCpAPtrHL (g : GB) : GB :=
  let newVal := (get8Reg g 7 + 256 - readMem g (g.regs 2)) % 256
  let g1 := setFlag g 1 (b2n (newVal == 0))
  let g2 := setFlag g1 3 (b2n (decide (get8Reg g1 7 < newVal)))
  let g3 := setFlag g2 4 1
  setFlag g3 5 (b2n (decide (get8Reg g3 7 &&& 0xF < newVal &&& 0xF)))

/-- Branch "inc r", lines 1244-1254. -/
def iIncR (g : GB) (op : Nat) : GB :=
  let reg := (op >>> 3) &&& 0b111
  let val := (get8Reg g reg + 1) % 256
  let g1 := setFlag g 1 (b2n (val == 0))
  let g2 := setFlag g1 4 0
  let g3 := setFlag g2 5 (b2n (decide (val &&& 0xF < get8Reg g2 reg &&& 0xF)))
  set8Reg g3 reg val

/-- Branch "inc (hl)" (0x34), lines 1256-1266. -/
def iIncPtrHL (g : GB) : GB :=
  let data := readMem g (g.regs 2)
  let val := (data + 1) % 256
  let g1 := setFlag g 1 (b2n (val == 0))
  let g2 := setFlag g1 4 0
  let g3 := setFlag g2 5 (b2n (decide (val &&& 0xF < data &&& 0xF)))
  writeMem g3 (g3.regs 2) val

/-- Branch "dec r", lines 1268-1278. -/
def iDecR (g : GB) (op : Nat) : GB :=
  let reg := (op >>> 3) &&& 0b111
  let val := (get8Reg g reg + 255) % 256
  let g1 := setFlag g 1 (b2n (val == 0))
  let g2 := setFlag g1 4 1
  let g3 := setFlag g2 5 (b2n (decide (get8Reg g2 reg &&& 0xF < val &&& 0xF)))
  set8Reg g3 reg val

/-- Branch "dec (hl)" (0x35), lines 1280-1290. -/
def iDecPtrHL (g : GB) : GB :=
  let data := readMem g (g.regs 2)
  let val := (data + 255) % 256
  let g1 := setFlag g 1 (b2n (val == 0))
  let g2 := setFlag g1 4 1
  let g3 := setFlag g2 5 (b2n (decide (data &&& 0xF < val &&& 0xF)))
  writeMem g3 (g3.regs 2) val

/-- Branch "daa" (0x27), lines 1292-1328 (with all the source's quirks:
`(val & 0xF0) > 9` in the second test, C-flag tests of AF bits 0x10 and
0x4, 8-bit wrap-around adjustments). -/
def iDaa (g : GB) : GB :=
  let val0 := get8Reg g 7
  let p1 : Nat × GB :=
    if 9 < (val0 &&& 0xF) ∨ 0 < (g.regs 7 &&& 0x20) then
      ((if 0 < (g.regs 7 &&& 0x10) then (val0 + 250) % 256 else (val0 + 6) % 256),
       setFlag g 3 0)
    else (val0, g)
  let p2 : Nat × GB :=
    if 9 < (p1.1 &&& 0xF0) ∨ 0 < (p1.2.regs 7 &&& 0x20) then
      ((if 0 < (p1.2.regs 7 &&& 0x4) then (p1.1 + 160) % 256 else (p1.1 + 0x60) % 256),
       setFlag p1.2 3 1)
    else p1
  let g3 := setFlag p2.2 1 (b2n (p2.1 == 0))
  let g4 := setFlag g3 5 0
  set8Reg g4 7 p2.1

/-- Branch "cpl" (0x2F), lines 1330-1337. -/
def iCpl (g : GB) : GB :=
  let val := get8Reg g 7 ^^^ 0xFF
  let g1 := set8Reg g 7 val
  let g2 := setFlag g1 4 1
  setFlag g2 5 1

/-- Branch "ld rr, nn", lines 1340-1346.  The register index is the full high
nibble `(opcode & 0xF0) >> 4`. -/
def iLdRRnn (g : GB) (op : Nat) : GB :=
  let reg := (op &&& 0xF0) >>> 4
  let p := fetchWord g
  {p.2 with regs := updFn p.2.regs reg p.1}

/-- Branch "push rr", lines 1348-1352. -/
def iPushRR (g : GB) (op : Nat) : GB :=
  push16 g (g.regs ((op >>> 4) &&& 0b11))

/-- Branch "pop rr", lines 1354-1358. -/
def iPopRR (g : GB) (op : Nat) : GB :=
  let p := pop16 g
  {p.2 with regs := updFn p.2.regs ((op >>> 4) &&& 0b11) p.1}

/-- Branch "add hl, rr", lines 1360-1370.  `uint8_t newVal` truncates the sum to
a byte before it is stored back into HL. -/
def iAddHLRR (g : GB) (op : Nat) : GB :=
  let reg := (op >>> 4) &&& 0b11
  let newVal := (g.regs 2 + g.regs reg) % 256
  let g1 := setFlag g 3 (b2n (decide (newVal < g.regs 2)))
  let g2 := setFlag g1 4 0
  let g3 := setFlag g2 5 (b2n (decide (newVal &&& 0xF < g2.regs 2 &&& 0xF)))
  {g3 with regs := updFn g3.regs 2 newVal}

/-- Branch "inc rr", lines 1372-1377. -/
def iIncRR (g : GB) (op : Nat) : GB :=
  let reg := (op >>> 4) &&& 0b11
  {g with regs := updFn g.regs reg ((g.regs reg + 1) % 65536)}

/-- Branch "dec rr", lines 1379-1384. -/
def iDecRR (g : GB) (op : Nat) : GB :=
  let reg := (op >>> 4) &&& 0b11
  {g with regs := updFn g.regs reg ((g.regs reg + 65535) % 65536)}

/-- Branch "add sp, dd" (0xE8), lines 1386-1410 (`uint8_t newVal` truncates SP
to a byte). -/
def iAddSPdd (g : GB) : GB :=
  let p := fetchByte g
  let g0 := p.2
  let pv : Nat × GB :=
    if 0 < (p.1 &&& 0x80) then
      let v2 := ((p.1 ^^^ 0xFF) + 1) % 256
      let nv := (g0.regs 3 % 256 + 256 - v2) % 256
      (nv, setFlag g0 5 (b2n (decide (g0.regs 3 &&& 0xF < nv &&& 0xF))))
    else
      let nv := (g0.regs 3 % 256 + p.1) % 256
      (nv, setFlag g0 5 (b2n (decide (nv &&& 0xF < g0.regs 3 &&& 0xF))))
  let g1 := setFlag pv.2 1 0
  let g2 := setFlag g1 3 (b2n (decide (0 < ((pv.1 ^^^ g1.regs 3) &&& 0x80))))
  let g3 := setFlag g2 4 0
  {g3 with regs := updFn g3.regs 3 pv.1}

/-- Branch "rlca" (0x07), lines 1413-1427. -/
def iRlca (g : GB) : GB :=
  let val0 := get8Reg g 7
  let tmp := val0 >>> 7
  let val := ((val0 <<< 1) % 256) ||| tmp
  let g1 := setFlag g 1 0
  let g2 := setFlag g1 3 (b2n (decide (0 < (get8Reg g1 7 &&& 0x80))))
  let g3 := setFlag g2 4 0
  let g4 := setFlag g3 5 0
  set8Reg g4 7 val

/-- Branch "rla" (0x17), lines 1429-1442 (the carry bit is ORed in unshifted, as
in the source). -/
def iRla (g : GB) : GB :=
  let val := ((get8Reg g 7 <<< 1) % 256) ||| (g.regs 7 &&& 0x8)
  let g1 := setFlag g 1 0
  let g2 := setFlag g1 3 (get8Reg g1 7 >>> 7)
  let g3 := setFlag g2 4 0
  let g4 := setFlag g3 5 0
  set8Reg g4 7 val

/-- Branch "rra" (0x1F), lines 1444-1457. -/
def iRra (g : GB) : GB :=
  let val := (get8Reg g 7 >>> 1) ||| ((g.regs 7 &&& 0x8) <<< 3)
  let g1 := setFlag g 1 0
  let g2 := setFlag g1 3 (get8Reg g1 7 &&& 1)
  let g3 := setFlag g2 4 0
  let g4 := setFlag g3 5 0
  set8Reg g4 7 val

/-- Branch "ccf" (0x3F), lines 1460-1463 (the source just clears C). -/
def iCcf (g : GB) : GB := setFlag g 3 0

/-- Branch "scf" (0x37), lines 1465-1468. -/
def iScf (g : GB) : GB := setFlag g 3 1

/-- Branch "halt" (0x76), lines 1470-1473. -/
def iHalt (g : GB) : GB := {g with halted := true}

/-- Branch "stop" (0x10), lines 1475-1479 (fetches and discards one byte). -/
def iStop (g : GB) : GB := (fetchByte g).2

/-- Branch "di" (0xF3), lines 1481-1484. -/
def iDi (g : GB) : GB := {g with IME := false}

/-- Branch "ei" (0xFB), lines 1486-1489 (sets IME immediately). -/
def iEi (g : GB) : GB := {g with IME := true}

/-- Branch "jp nn" (0xC3), lines 1492-1497 (the source jumps to `addr + 1`). -/
def iJpNN (g : GB) : GB :=
  let p := fetchWord g
  {p.2 with regs := updFn p.2.regs 4 ((p.1 + 1) % 65536)}

/-- Branch "jp hl" (0xE9), lines 1499-1504. -/
def iJpHL (g : GB) : GB :=
  {g with regs := updFn g.regs 4 (g.regs 2)}

/-- Branch "jp f,nn", lines 1506-1519.  `uint8_t addr = FetchWord(gb)` truncates
the target to its low byte. -/
def iJpFnn (g : GB) (op : Nat) : GB :=
  let p := fetchWord g
  let addr := p.1 % 256
  let flag := (op >>> 3) &&& 0b11
  if checkFlag p.2 flag then {p.2 with regs := updFn p.2.regs 4 addr} else p.2

/-- Branch "jp f,dd" (relative), lines 1521-1544. -/
def iJpFdd (g : GB) (op : Nat) : GB :=
  let p := fetchByte g
  let flag := (op >>> 3) &&& 0b11
  if checkFlag p.2 flag then
    if 0 < (p.1 &&& 0x80) then
      let off := ((p.1 ^^^ 0xFF) + 1) % 256
      {p.2 with regs := updFn p.2.regs 4 ((p.2.regs 4 + 65536 - off) % 65536)}
    else
      {p.2 with regs := updFn p.2.regs 4 ((p.2.regs 4 + p.1) % 65536)}
  else p.2

/-- Branch "jr dd" (0x18), lines 1546-1561. -/
def iJrdd (g : GB) : GB :=
  let p := fetchByte g
  if 0 < (p.1 &&& 0x80) then
    let off := ((p.1 ^^^ 0xFF) + 1) % 256
    {p.2 with regs := updFn p.2.regs 4 ((p.2.regs 4 + 65536 - off) % 65536)}
  else
    {p.2 with regs := updFn p.2.regs 4 ((p.2.regs 4 + p.1) % 65536)}

/-- Branch "call nn" (0xCD), lines 1563-1569. -/
def iCallNN (g : GB) : GB :=
  let p := fetchWord g
  let g1 := push16 p.2 (p.2.regs 4)
  {g1 with regs := updFn g1.regs 4 p.1}

/-- Branch "call f,nn", lines 1571-1583 (its own inline push writes only PC's
low byte, through the `uint8_t` parameter of `WriteMem`). -/
def iCallFnn (g : GB) (op : Nat) : GB :=
  let flag := (op >>> 3) &&& 0b111
  let p := fetchWord g
  if checkFlag p.2 flag then
    let g1 := {p.2 with regs := updFn p.2.regs 3 ((p.2.regs 3 + 65534) % 65536)}
    let g2 := writeMem g1 (g1.regs 3) (g1.regs 4)
    {g2 with regs := updFn g2.regs 4 p.1}
  else p.2

/-- Branch "ret" (0xC9), lines 1585-1588. -/
def iRet (g : GB) : GB :=
  let p := pop16 g
  {p.2 with regs := updFn p.2.regs 4 p.1}

/-- Branch "ret f", lines 1590-1598. -/
def iRetF (g : GB) (op : Nat) : GB :=
  let flag := (op >>> 3) &&& 0b111
  if checkFlag g flag then
    let p := pop16 g
    {p.2 with regs := updFn p.2.regs 4 p.1}
  else g

/-- Branch "reti" (0xD9), lines 1600-1604. -/
def iReti (g : GB) : GB :=
  let p := pop16 g
  {p.2 with regs := updFn p.2.regs 4 p.1, IME := true}

/-- Branch "rst n", lines 1606-1612 (the source fetches an extra byte and uses
its bits 5-3 as the vector). -/
def iRst (g : GB) : GB :=
  let p := fetchByte g
  let val := (p.1 >>> 3) &&& 0b111
  let g1 := push16 p.2 (p.2.regs 4)
  {g1 with regs := updFn g1.regs 4 val}

/-! ### CB-prefixed instruction bodies (`DoCBInstruction`, GB.h 757-864) -/

/-- Branch "rl r", lines 765-777 (`(AF & 0x8) >> 4` is the carry-in the source
uses). -/
def cbRlR (g : GB) (op : Nat) : GB :=
  let reg := op &&& 0b111
  let val := ((get8Reg g reg <<< 1) % 256) ||| ((g.regs 7 &&& 0x8) >>> 4)
  let g1 := setFlag g 1 (b2n (val == 0))
  let g2 := setFlag g1 3 (get8Reg g1 reg >>> 7)
  set8Reg g2 reg val

/-- Branch "rr r", lines 779-791. -/
def cbRrR (g : GB) (op : Nat) : GB :=
  let reg := op &&& 0b111
  let val := (get8Reg g reg >>> 1) ||| ((g.regs 7 &&& 0x8) <<< 3)
  let g1 := setFlag g 1 (b2n (val == 0))
  let g2 := setFlag g1 3 (get8Reg g1 reg &&& 1)
  set8Reg g2 reg val

/-- Branch "rr (hl)" (0x1E), lines 793-804. -/
def cbRrHL (g : GB) : GB :=
  let val := (readMem g (g.regs 2) >>> 1) ||| ((g.regs 7 &&& 0x8) <<< 3)
  let g1 := setFlag g 1 (b2n (val == 0))
  let g2 := setFlag g1 3 (readMem g1 (g1.regs 2) &&& 1)
  writeMem g2 (g2.regs 2) val

/-- Branch "sla r", lines 806-814 (the source updates no flags here). -/
def cbSlaR (g : GB) (op : Nat) : GB :=
  let reg := op &&& 0b111
  set8Reg g reg ((get8Reg g reg <<< 1) % 256)

/-- Branch "swap r", lines 816-825 (no flags). -/
def cbSwapR (g : GB) (op : Nat) : GB :=
  let reg := op &&& 0b111
  let val := get8Reg g reg
  let lo := val &&& 0xF
  set8Reg g reg ((val >>> 4) ||| (lo <<< 4))

/-- Branch "srl r", lines 827-835 (no flags). -/
def cbSrlR (g : GB) (op : Nat) : GB :=
  let reg := op &&& 0b111
  set8Reg g reg (get8Reg g reg >>> 1)

/-- Branch "bit n,r", lines 837-845 (guarded by the never-true `instr_bit`; the
source uses `opcode >> 4` as the bit number). -/
def cbBit (g : GB) (op : Nat) : GB :=
  let bit := op >>> 4
  let regv := get8Reg g (op &&& 0b111)
  let g1 := setFlag g 1 (b2n (regv &&& (1 <<< bit) == 0))
  let g2 := setFlag g1 4 0
  setFlag g2 5 1

/-- Branch "res n,r", lines 847-853 (guarded by the never-true `instr_res_bit`;
`reg & ~(1 << bit)` on byte values, written with a 16-bit complement). -/
def cbRes (g : GB) (op : Nat) : GB :=
  let bit := op >>> 4
  let regv := get8Reg g (op &&& 0b111)
  set8Reg g (op &&& 0b111) (regv &&& (65535 - (1 <<< bit)))

/-- Function `DoCBInstruction` (GB.h lines 757-864): fetch the CB opcode and run
the first matching guard, returning `false` (and the state as fetched)
for unknown CB opcodes. -/
def doCBInstruction (gb0 : GB) : Bool × GB :=
  let p := fetchByte gb0
  let op := p.1
  let g := p.2
  if instrRightR op 0x10 then (true, cbRlR g op)
  else if instrRightR op 0x18 then (true, cbRrR g op)
  else if op == 0x1E then (true, cbRrHL g)
  else if instrRightR op 0x20 then (true, cbSlaR g op)
  else if instrRightR op 0x30 then (true, cbSwapR g op)
  else if instrRightR op 0x38 then (true, cbSrlR g op)
  else if instrBit op then (true, cbBit g op)
  else if instrResBit op then (true, cbRes g op)
  else (false, g)

/-- The opcode dispatch chain of `DoInstruction` (GB.h lines 876-1620)
is one long `else if` chain; it is modelled here as six consecutive
segments cut exactly at the source's own section comments ("8 bit Load
Commands", "8 bit Arthimetic/Logical Commands", "16 bit
Load/Arithmetic/Logical Commands", "Rotate/Shift Commands", "CPU Control
Commands", "Jump Commands"), chained by their final `else`.  The branch
order inside and across segments is exactly the source's; an opcode is
handled by the first guard it satisfies.  `execOpJump` is the last
segment; unknown opcodes reach its final `else` and return `false`. -/
def execOpJump (g : GB) (op : Nat) : Bool × GB :=
  if op == 0xC3 then (true, iJpNN g)
  else if op == 0xE9 then (true, iJpHL g)
  else if instrLeftF op 0xC2 3 then (true, iJpFnn g op)
  else if instrLeftF op 0x20 3 then (true, iJpFdd g op)
  else if op == 0x18 then (true, iJrdd g)
  else if op == 0xCD then (true, iCallNN g)
  else if instrLeftR op 0xC4 3 then (true, iCallFnn g op)
  else if op == 0xC9 then (true, iRet g)
  else if instrLeftR op 0xC0 3 then (true, iRetF g op)
  else if op == 0xD9 then (true, iReti g)
  else if instrRst op then (true, iRst g)
  else (false, g)

/-- Segment "CPU Control Commands" (GB.h lines 1459-1489). -/
def execOpCpuCtl (g : GB) (op : Nat) : Bool × GB :=
  if op == 0x3F then (true, iCcf g)
  else if op == 0x37 then (true, iScf g)
  else if op == 0x76 then (true, iHalt g)
  else if op == 0x10 then (true, iStop g)
  else if op == 0xF3 then (true, iDi g)
  else if op == 0xFB then (true, iEi g)
  else execOpJump g op

/-- Segment "Rotate/Shift Commands" (GB.h lines 1412-1457). -/
def execOpRotShift (g : GB) (op : Nat) : Bool × GB :=
  if op == 0x07 then (true, iRlca g)
  else if op == 0x17 then (true, iRla g)
  else if op == 0x1F then (true, iRra g)
  else execOpCpuCtl g op

/-- Segment "16 bit Load/Arithmetic/Logical Commands" (GB.h lines
1339-1410). -/
def execOpArith16 (g : GB) (op : Nat) : Bool × GB :=
  if instrLeftR op 0x01 4 then (true, iLdRRnn g op)
  else if instrLeftR op 0xC5 4 then (true, iPushRR g op)
  else if instrLeftR op 0xC1 4 then (true, iPopRR g op)
  else if instrLeftR op 0x09 4 then (true, iAddHLRR g op)
  else if instrLeftR op 0x03 4 then (true, iIncRR g op)
  else if instrLeftR op 0x0B 4 then (true, iDecRR g op)
  else if op == 0xE8 then (true, iAddSPdd g)
  else execOpRotShift g op

/-- Segment "8 bit Arthimetic/Logical Commands" (GB.h lines 1009-1337).
-/
def execOpArith8 (g : GB) (op : Nat) : Bool × GB :=
  if instrRightR op 0x80 then (true, iAddAR g op)
  else if op == 0xC6 then (true, iAddAn g)
  else if instrRightR op 0x88 then (true, iAdcAR g op)
  else if op == 0x86 then (true, iAddAPtrHL g)
  else if op == 0x8E then (true, iAdcAPtrHL g)
  else if instrRightR op 0x90 then (true, iSubAR g op)
  else if op == 0xD6 then (true, iSubAn g)
  else if instrRightR op 0x98 then (true, iSbcAR g op)
  else if op == 0x9E then (true, iSbcAPtrHL g)
  else if instrRightR op 0xA0 then (true, iAndAR g op)
  else if op == 0xE6 then (true, iAndAn g)
  else if op == 0xF6 then (true, iOrAn g)
  else if op == 0xB6 then (true, iOrAPtrHL g)
  else if instrRightR op 0xA8 then (true, iXorAR g op)
  else if op == 0xAE then (true, iXorAPtrHL g)
  else if instrRightR op 0xB0 then (true, iOrAR g op)
  else if instrRightR op 0xB8 then (true, iCpAR g op)
  else if op == 0xFE then (true, iCpAn g)
  else if op == 0xBE then (true, iCpAPtrHL g)
  else if instrLeftR op 0x4 3 then (true, iIncR g op)
  else if op == 0x34 then (true, iIncPtrHL g)
  else if instrLeftR op 0x5 3 then (true, iDecR g op)
  else if op == 0x35 then (true, iDecPtrHL g)
  else if op == 0x27 then (true, iDaa g)
  else if op == 0x2F then (true, iCpl g)
  else execOpArith16 g op

/-- Segment "8 bit Load Commands" (with the leading NOP check), GB.h
lines 876-1007.  This is the entry point of the chain. -/
def execOp (g : GB) (op : Nat) : Bool × GB :=
  if op == 0x00 then (true, g)
  else if op == 0x08 then (true, iLdNNSP g)
  else if instrLdRR op 0x40 3 then (true, iLdRR g op)
  else if instrLeftR op 0x6 3 then (true, iLdRn g op)
  else if op == 0x12 then (true, iLdPtrDEA g)
  else if op == 0xF0 then (true, iLdAIOn g)
  else if op == 0xE0 then (true, iLdIOnA g)
  else if op == 0xE2 then (true, iLdIOCA g)
  else if op == 0x2A then (true, iLdiAPtrHL g)
  else if op == 0x22 then (true, iLdiPtrHLA g)
  else if op == 0x32 then (true, iLddPtrHLA g)
  else if instrLeftR op 0x46 3 then (true, iLdRPtrHL g op)
  else if instrRightR op 0x70 then (true, iLdPtrHLR g op)
  else if op == 0x36 then (true, iLdPtrHLn g)
  else if op == 0x0A then (true, iLdAPtrBC g)
  else if op == 0x1A then (true, iLdAPtrDE g)
  else if op == 0xFA then (true, iLdAPtrnn g)
  else if op == 0x02 then (true, iLdPtrBCA g)
  else if op == 0xEA then (true, iLdPtrnnA g)
  else execOpArith8 g op

/-- Function `DoInstruction` (GB.h lines 866-1621): fetch the opcode at PC,
dispatch 0xCB to the CB decoder, otherwise run the `else if` chain. -/
def doInstruction (gb0 : GB) : Bool × GB :=
  let p := fetchByte gb0
  if p.1 == 0xCB then doCBInstruction p.2 else execOp p.2 p.1

/-- The interrupt-dispatch cascade of `StartGB` (GB.h lines 1714-1734):
`CheckInterrupt`/`CallInterrupt` for VBlank (mask 1, vector $40), LCD
STAT (2, $48), Timer (4, $50), Serial (8, $58), Joypad (16, $60), in
that priority order. -/
def interruptStep (gb : GB) : GB :=
  let p1 := checkInterrupt gb 0x1
  if p1.1 then callInterrupt p1.2 0x40
  else
    let p2 := checkInterrupt gb 0x2
    if p2.1 then callInterrupt p2.2 0x48
    else
      let p3 := checkInterrupt gb 0x4
      if p3.1 then callInterrupt p3.2 0x50
      else
        let p4 := checkInterrupt gb 0x8
        if p4.1 then callInterrupt p4.2 0x58
        else
          let p5 := checkInterrupt gb 0x10
          if p5.1 then callInterrupt p5.2 0x60
          else gb

/-- The LY-advance block of `StartGB`'s main loop (GB.h lines 1736-1759):
read LY ($FF44), increment it (8-bit), set IF bit 0 when it hits exactly
144, wrap to 0 past 153, and store it directly into `mem`. -/
def lyStep (gb : GB) : GB :=
  let ly0 := readMem gb 0xFF44
  let ly1 := (ly0 + 1) % 256
  let gb1 :=
    if ly1 = 144 then
      let v := readMem gb 0xFF0F
      writeMem gb 0xFF0F (v ||| 1)
    else gb
  let ly2 := if 153 < ly1 then 0 else ly1
  {gb1 with mem := updFn gb1.mem (0xFF44 - 0x8000) ly2}

/-- A sequence of `WriteMem` calls, oldest first (used to state run-long
properties of the boot latch). -/
def applyWrites (gb : GB) (ws : List (Nat × Nat)) : GB :=
  ws.foldl (fun g p => writeMem g p.1 p.2) gb




/-! ### Arithmetic helpers for the flag-register invariant -/

theorem and15_mod (y : Nat) : y &&& 15 = y % 16 := by
  have h := Nat.and_pow_two_sub_one_eq_mod y 4
  simpa using h

theorem and1_mod (y : Nat) : y &&& 1 = y % 2 := by
  have h := Nat.and_pow_two_sub_one_eq_mod y 1
  simpa using h

theorem natOrAndRight (a b c : Nat) : (a ||| b) &&& c = (a &&& c) ||| (b &&& c) := by
  apply Nat.eq_of_testBit_eq
  intro i
  simp [Nat.testBit_or, Nat.testBit_and, Bool.and_or_distrib_right]

theorem or_mod16 (x m : Nat) (h : m % 16 = 0) : (x ||| m) % 16 = x % 16 := by
  rw [← and15_mod, ← and15_mod x, natOrAndRight, and15_mod m, h, Nat.or_zero]

theorem and_mod16 (x m : Nat) (h : m &&& 15 = 15) : (x &&& m) % 16 = x % 16 := by
  rw [← and15_mod, ← and15_mod x, Nat.and_assoc, h]

theorem and7_le (x : Nat) : x &&& 7 ≤ 7 := Nat.and_le_right

/-! ### The register-file footprint of the state primitives -/

theorem regs_writeMemRomOnly (g : GB) (a v : Nat) :
    (writeMemRomOnly g a v).regs = g.regs := by
  simp only [writeMemRomOnly]
  split
  · split <;> rfl
  · rfl

theorem regs_writeMem (g : GB) (a v : Nat) : (writeMem g a v).regs = g.regs := by
  simp only [writeMem]
  split <;> simp [regs_writeMemRomOnly]

theorem regs7_fetchByte (g : GB) : (fetchByte g).2.regs 7 = g.regs 7 := by
  simp [fetchByte, updFn]

theorem regs7_fetchWord (g : GB) : (fetchWord g).2.regs 7 = g.regs 7 := by
  simp [fetchWord, regs7_fetchByte]

theorem regs7_push16 (g : GB) (v : Nat) : (push16 g v).regs 7 = g.regs 7 := by
  simp [push16, regs_writeMem, updFn]

theorem regs7_pop16 (g : GB) : (pop16 g).2.regs 7 = g.regs 7 := by
  simp [pop16, updFn]

theorem regsF_setFlag (g : GB) (f v : Nat) :
    (setFlag g f v).regs 7 % 16 = g.regs 7 % 16 := by
  unfold setFlag
  dsimp only
  split
  case isFalse h => rfl
  case isTrue h =>
    split <;>
      rcases h with h | h | h | h <;> subst h <;> simp [updFn] <;>
      first
        | (apply or_mod16; decide)
        | (apply and_mod16; decide)

theorem regsF_set8Reg (g : GB) (reg v : Nat) (h : reg ≤ 7) :
    (set8Reg g reg v).regs 7 % 16 = g.regs 7 % 16 := by
  unfold set8Reg
  interval_cases reg <;> simp [updFn]
  rw [or_mod16 _ _ (by rw [Nat.shiftLeft_eq]; omega)]
  exact and_mod16 _ _ (by decide)


attribute [simp] regsF_setFlag regsF_set8Reg regs_writeMem regs_writeMemRomOnly
attribute [simp] regs7_fetchByte regs7_fetchWord regs7_push16 regs7_pop16 and7_le

@[simp] theorem updFn_eq (f : Nat → Nat) (i v j : Nat) :
    updFn f i v j = if j = i then v else f j := rfl

@[simp] theorem and3_le (x : Nat) : x &&& 3 ≤ 3 := Nat.and_le_right

/-! ### Each instruction body leaves the low nibble of F unchanged -/

theorem regsF_iLdNNSP (g : GB) : (iLdNNSP g).regs 7 % 16 = g.regs 7 % 16 := by
  simp [iLdNNSP]

theorem regsF_iLdRR (g : GB) (op : Nat) : (iLdRR g op).regs 7 % 16 = g.regs 7 % 16 := by
  simp [iLdRR]

theorem regsF_iLdRn (g : GB) (op : Nat) : (iLdRn g op).regs 7 % 16 = g.regs 7 % 16 := by
  simp [iLdRn]

theorem regsF_iLdPtrDEA (g : GB) : (iLdPtrDEA g).regs 7 % 16 = g.regs 7 % 16 := by
  simp [iLdPtrDEA]

theorem regsF_iLdAIOn (g : GB) : (iLdAIOn g).regs 7 % 16 = g.regs 7 % 16 := by
  simp [iLdAIOn]

theorem regsF_iLdIOnA (g : GB) : (iLdIOnA g).regs 7 % 16 = g.regs 7 % 16 := by
  simp [iLdIOnA]

theorem regsF_iLdIOCA (g : GB) : (iLdIOCA g).regs 7 % 16 = g.regs 7 % 16 := by
  simp [iLdIOCA]

theorem regsF_iLdiAPtrHL (g : GB) : (iLdiAPtrHL g).regs 7 % 16 = g.regs 7 % 16 := by
  simp [iLdiAPtrHL]

theorem regsF_iLdiPtrHLA (g : GB) : (iLdiPtrHLA g).regs 7 % 16 = g.regs 7 % 16 := by
  simp [iLdiPtrHLA]

theorem regsF_iLddPtrHLA (g : GB) : (iLddPtrHLA g).regs 7 % 16 = g.regs 7 % 16 := by
  simp [iLddPtrHLA]

theorem regsF_iLdRPtrHL (g : GB) (op : Nat) : (iLdRPtrHL g op).regs 7 % 16 = g.regs 7 % 16 := by
  simp [iLdRPtrHL]

theorem regsF_iLdPtrHLR (g : GB) (op : Nat) : (iLdPtrHLR g op).regs 7 % 16 = g.regs 7 % 16 := by
  simp [iLdPtrHLR]

theorem regsF_iLdPtrHLn (g : GB) : (iLdPtrHLn g).regs 7 % 16 = g.regs 7 % 16 := by
  simp [iLdPtrHLn]

theorem regsF_iLdAPtrBC (g : GB) : (iLdAPtrBC g).regs 7 % 16 = g.regs 7 % 16 := by
  simp [iLdAPtrBC]

theorem regsF_iLdAPtrDE (g : GB) : (iLdAPtrDE g).regs 7 % 16 = g.regs 7 % 16 := by
  simp [iLdAPtrDE]

theorem regsF_iLdAPtrnn (g : GB) : (iLdAPtrnn g).regs 7 % 16 = g.regs 7 % 16 := by
  simp [iLdAPtrnn]

theorem regsF_iLdPtrBCA (g : GB) : (iLdPtrBCA g).regs 7 % 16 = g.regs 7 % 16 := by
  simp [iLdPtrBCA]

theorem regsF_iLdPtrnnA (g : GB) : (iLdPtrnnA g).regs 7 % 16 = g.regs 7 % 16 := by
  simp [iLdPtrnnA]

theorem regsF_iAddAR (g : GB) (op : Nat) : (iAddAR g op).regs 7 % 16 = g.regs 7 % 16 := by
  simp [iAddAR]

theorem regsF_iAddAn (g : GB) : (iAddAn g).regs 7 % 16 = g.regs 7 % 16 := by
  simp [iAddAn]

theorem regsF_iAdcAR (g : GB) (op : Nat) : (iAdcAR g op).regs 7 % 16 = g.regs 7 % 16 := by
  simp [iAdcAR]

theorem regsF_iAddAPtrHL (g : GB) : (iAddAPtrHL g).regs 7 % 16 = g.regs 7 % 16 := by
  simp [iAddAPtrHL]

theorem regsF_iAdcAPtrHL (g : GB) : (iAdcAPtrHL g).regs 7 % 16 = g.regs 7 % 16 := by
  simp [iAdcAPtrHL]

theorem regsF_iSubAR (g : GB) (op : Nat) : (iSubAR g op).regs 7 % 16 = g.regs 7 % 16 := by
  simp [iSubAR]

theorem regsF_iSubAn (g : GB) : (iSubAn g).regs 7 % 16 = g.regs 7 % 16 := by
  simp [iSubAn]

theorem regsF_iSbcAR (g : GB) (op : Nat) : (iSbcAR g op).regs 7 % 16 = g.regs 7 % 16 := by
  simp [iSbcAR]

theorem regsF_iSbcAPtrHL (g : GB) : (iSbcAPtrHL g).regs 7 % 16 = g.regs 7 % 16 := by
  simp [iSbcAPtrHL]

theorem regsF_iAndAR (g : GB) (op : Nat) : (iAndAR g op).regs 7 % 16 = g.regs 7 % 16 := by
  simp [iAndAR]

theorem regsF_iAndAn (g : GB) : (iAndAn g).regs 7 % 16 = g.regs 7 % 16 := by
  simp [iAndAn]

theorem regsF_iOrAn (g : GB) : (iOrAn g).regs 7 % 16 = g.regs 7 % 16 := by
  simp [iOrAn]

theorem regsF_iOrAPtrHL (g : GB) : (iOrAPtrHL g).regs 7 % 16 = g.regs 7 % 16 := by
  simp [iOrAPtrHL]

theorem regsF_iXorAR (g : GB) (op : Nat) : (iXorAR g op).regs 7 % 16 = g.regs 7 % 16 := by
  simp [iXorAR]

theorem regsF_iXorAPtrHL (g : GB) : (iXorAPtrHL g).regs 7 % 16 = g.regs 7 % 16 := by
  simp [iXorAPtrHL]

theorem regsF_iOrAR (g : GB) (op : Nat) : (iOrAR g op).regs 7 % 16 = g.regs 7 % 16 := by
  simp [iOrAR]

theorem regsF_iCpAR (g : GB) (op : Nat) : (iCpAR g op).regs 7 % 16 = g.regs 7 % 16 := by
  simp [iCpAR]

theorem regsF_iCpAn (g : GB) : (iCpAn g).regs 7 % 16 = g.regs 7 % 16 := by
  simp [iCpAn]

theorem regsF_iCpAPtrHL (g : GB) : (iCpAPtrHL g).regs 7 % 16 = g.regs 7 % 16 := by
  simp [iCpAPtrHL]

theorem regsF_iIncR (g : GB) (op : Nat) : (iIncR g op).regs 7 % 16 = g.regs 7 % 16 := by
  simp [iIncR]

theorem regsF_iIncPtrHL (g : GB) : (iIncPtrHL g).regs 7 % 16 = g.regs 7 % 16 := by
  simp [iIncPtrHL]

theorem regsF_iDecR (g : GB) (op : Nat) : (iDecR g op).regs 7 % 16 = g.regs 7 % 16 := by
  simp [iDecR]

theorem regsF_iDecPtrHL (g : GB) : (iDecPtrHL g).regs 7 % 16 = g.regs 7 % 16 := by
  simp [iDecPtrHL]

theorem regsF_iDaa (g : GB) : (iDaa g).regs 7 % 16 = g.regs 7 % 16 := by
  unfold iDaa
  dsimp only
  rw [regsF_set8Reg _ _ _ (by norm_num), regsF_setFlag, regsF_setFlag,
      apply_ite (fun p : Nat × GB => p.2.regs 7 % 16)]
  simp only [regsF_setFlag, ite_self]
  rw [apply_ite (fun p : Nat × GB => p.2.regs 7 % 16)]
  simp only [regsF_setFlag, ite_self]

theorem regsF_iCpl (g : GB) : (iCpl g).regs 7 % 16 = g.regs 7 % 16 := by
  simp [iCpl]

theorem regsF_iLdRRnn (g : GB) (op : Nat)
    (hpos : instrLeftR op 0x01 4 = true)
    (h70 : ¬ instrRightR op 0x70 = true) :
    (iLdRRnn g op).regs 7 % 16 = g.regs 7 % 16 := by
  have h1 : op % 2 = 1 := by
    simp [instrLeftR] at hpos
    exact hpos.1
  have hne : (op &&& 0xF0) >>> 4 ≠ 7 := by
    intro h7
    have e1 : (0xF0 : Nat) &&& 15 = 0 := by decide
    have hx0 : (op &&& 0xF0) % 16 = 0 := by
      rw [← and15_mod, Nat.and_assoc, e1, Nat.and_zero]
    have hdiv : (op &&& 0xF0) / 16 = 7 := by
      rwa [Nat.shiftRight_eq_div_pow, show (2:Nat)^4 = 16 by norm_num] at h7
    have heq : op &&& 0xF0 = 0x70 := by omega
    have e2 : (0xF0 : Nat) &&& 0x70 = 0x70 := by decide
    have h70x : op &&& 0x70 = 0x70 := by
      calc op &&& 0x70 = op &&& (0xF0 &&& 0x70) := by rw [e2]
        _ = (op &&& 0xF0) &&& 0x70 := (Nat.and_assoc op 0xF0 0x70).symm
        _ = 0x70 &&& 0x70 := by rw [heq]
        _ = 0x70 := by decide
    have hne6 : op &&& 7 ≠ 6 := by
      intro h6
      have e3 : (7 : Nat) &&& 1 = 1 := by decide
      have h0 : (op &&& 7) &&& 1 = 1 := by rw [Nat.and_assoc, e3, and1_mod, h1]
      rw [h6] at h0
      exact absurd h0 (by decide)
    exact h70 (by simp [instrRightR, h70x, hne6])
  simp [iLdRRnn, Ne.symm hne]

theorem regsF_iPushRR (g : GB) (op : Nat) : (iPushRR g op).regs 7 % 16 = g.regs 7 % 16 := by
  simp [iPushRR]

theorem regsF_iPopRR (g : GB) (op : Nat) : (iPopRR g op).regs 7 % 16 = g.regs 7 % 16 := by
  have hne : (7 : Nat) ≠ (op >>> 4) &&& 0b11 := by
    have h := and3_le (op >>> 4)
    omega
  simp [iPopRR, hne]

theorem regsF_iAddHLRR (g : GB) (op : Nat) : (iAddHLRR g op).regs 7 % 16 = g.regs 7 % 16 := by
  simp [iAddHLRR]

theorem regsF_iIncRR (g : GB) (op : Nat) : (iIncRR g op).regs 7 % 16 = g.regs 7 % 16 := by
  have hne : (7 : Nat) ≠ (op >>> 4) &&& 0b11 := by
    have h := and3_le (op >>> 4)
    omega
  simp [iIncRR, hne]

theorem regsF_iDecRR (g : GB) (op : Nat) : (iDecRR g op).regs 7 % 16 = g.regs 7 % 16 := by
  have hne : (7 : Nat) ≠ (op >>> 4) &&& 0b11 := by
    have h := and3_le (op >>> 4)
    omega
  simp [iDecRR, hne]

theorem regsF_iAddSPdd (g : GB) : (iAddSPdd g).regs 7 % 16 = g.regs 7 % 16 := by
  unfold iAddSPdd
  dsimp only
  simp only [updFn_eq, if_neg (by norm_num : ¬ (7 : Nat) = 3)]
  rw [regsF_setFlag, regsF_setFlag, regsF_setFlag,
      apply_ite (fun p : Nat × GB => p.2.regs 7 % 16)]
  simp only [regsF_setFlag, ite_self, regs7_fetchByte]

theorem regsF_iRlca (g : GB) : (iRlca g).regs 7 % 16 = g.regs 7 % 16 := by
  simp [iRlca]

theorem regsF_iRla (g : GB) : (iRla g).regs 7 % 16 = g.regs 7 % 16 := by
  simp [iRla]

theorem regsF_iRra (g : GB) : (iRra g).regs 7 % 16 = g.regs 7 % 16 := by
  simp [iRra]

theorem regsF_iCcf (g : GB) : (iCcf g).regs 7 % 16 = g.regs 7 % 16 := by
  simp [iCcf]

theorem regsF_iScf (g : GB) : (iScf g).regs 7 % 16 = g.regs 7 % 16 := by
  simp [iScf]

theorem regsF_iHalt (g : GB) : (iHalt g).regs 7 % 16 = g.regs 7 % 16 := by
  simp [iHalt]

theorem regsF_iStop (g : GB) : (iStop g).regs 7 % 16 = g.regs 7 % 16 := by
  simp [iStop]

theorem regsF_iDi (g : GB) : (iDi g).regs 7 % 16 = g.regs 7 % 16 := by
  simp [iDi]

theorem regsF_iEi (g : GB) : (iEi g).regs 7 % 16 = g.regs 7 % 16 := by
  simp [iEi]

theorem regsF_iJpNN (g : GB) : (iJpNN g).regs 7 % 16 = g.regs 7 % 16 := by
  simp [iJpNN]

theorem regsF_iJpHL (g : GB) : (iJpHL g).regs 7 % 16 = g.regs 7 % 16 := by
  simp [iJpHL]

theorem regsF_iJpFnn (g : GB) (op : Nat) : (iJpFnn g op).regs 7 % 16 = g.regs 7 % 16 := by
  unfold iJpFnn
  dsimp only
  repeat' split
  all_goals simp

theorem regsF_iJpFdd (g : GB) (op : Nat) : (iJpFdd g op).regs 7 % 16 = g.regs 7 % 16 := by
  unfold iJpFdd
  dsimp only
  repeat' split
  all_goals simp

theorem regsF_iJrdd (g : GB) : (iJrdd g).regs 7 % 16 = g.regs 7 % 16 := by
  unfold iJrdd
  dsimp only
  repeat' split
  all_goals simp

theorem regsF_iCallNN (g : GB) : (iCallNN g).regs 7 % 16 = g.regs 7 % 16 := by
  simp [iCallNN]

theorem regsF_iCallFnn (g : GB) (op : Nat) : (iCallFnn g op).regs 7 % 16 = g.regs 7 % 16 := by
  unfold iCallFnn
  dsimp only
  repeat' split
  all_goals simp

theorem regsF_iRet (g : GB) : (iRet g).regs 7 % 16 = g.regs 7 % 16 := by
  simp [iRet]

theorem regsF_iRetF (g : GB) (op : Nat) : (iRetF g op).regs 7 % 16 = g.regs 7 % 16 := by
  unfold iRetF
  dsimp only
  repeat' split
  all_goals simp

theorem regsF_iReti (g : GB) : (iReti g).regs 7 % 16 = g.regs 7 % 16 := by
  simp [iReti]

theorem regsF_iRst (g : GB) : (iRst g).regs 7 % 16 = g.regs 7 % 16 := by
  simp [iRst]

theorem regsF_cbRlR (g : GB) (op : Nat) : (cbRlR g op).regs 7 % 16 = g.regs 7 % 16 := by
  simp [cbRlR]

theorem regsF_cbRrR (g : GB) (op : Nat) : (cbRrR g op).regs 7 % 16 = g.regs 7 % 16 := by
  simp [cbRrR]

theorem regsF_cbRrHL (g : GB) : (cbRrHL g).regs 7 % 16 = g.regs 7 % 16 := by
  simp [cbRrHL]

theorem regsF_cbSlaR (g : GB) (op : Nat) : (cbSlaR g op).regs 7 % 16 = g.regs 7 % 16 := by
  simp [cbSlaR]

theorem regsF_cbSwapR (g : GB) (op : Nat) : (cbSwapR g op).regs 7 % 16 = g.regs 7 % 16 := by
  simp [cbSwapR]

theorem regsF_cbSrlR (g : GB) (op : Nat) : (cbSrlR g op).regs 7 % 16 = g.regs 7 % 16 := by
  simp [cbSrlR]

theorem regsF_cbBit (g : GB) (op : Nat) : (cbBit g op).regs 7 % 16 = g.regs 7 % 16 := by
  simp [cbBit]

theorem regsF_cbRes (g : GB) (op : Nat) : (cbRes g op).regs 7 % 16 = g.regs 7 % 16 := by
  simp [cbRes]

/-! ### The low nibble of F survives any single instruction -/

theorem doCBInstruction_F (g : GB) :
    (doCBInstruction g).2.regs 7 % 16 = g.regs 7 % 16 := by
  delta doCBInstruction
  dsimp only
  repeat' split
  all_goals
    first
    | rw [regsF_cbRlR, regs7_fetchByte]
    | rw [regsF_cbRrR, regs7_fetchByte]
    | rw [regsF_cbRrHL, regs7_fetchByte]
    | rw [regsF_cbSlaR, regs7_fetchByte]
    | rw [regsF_cbSwapR, regs7_fetchByte]
    | rw [regsF_cbSrlR, regs7_fetchByte]
    | rw [regsF_cbBit, regs7_fetchByte]
    | rw [regsF_cbRes, regs7_fetchByte]
    | rw [regs7_fetchByte]

set_option maxRecDepth 8000 in
theorem execOpJump_F (g : GB) (op : Nat) :
    (execOpJump g op).2.regs 7 % 16 = g.regs 7 % 16 := by
  delta execOpJump
  by_cases h1 : (op == 0xC3) = true
  · rw [if_pos h1]
    exact regsF_iJpNN g
  rw [if_neg h1]
  by_cases h2 : (op == 0xE9) = true
  · rw [if_pos h2]
    exact regsF_iJpHL g
  rw [if_neg h2]
  by_cases h3 : instrLeftF op 0xC2 3 = true
  · rw [if_pos h3]
    exact regsF_iJpFnn g op
  rw [if_neg h3]
  by_cases h4 : instrLeftF op 0x20 3 = true
  · rw [if_pos h4]
    exact regsF_iJpFdd g op
  rw [if_neg h4]
  by_cases h5 : (op == 0x18) = true
  · rw [if_pos h5]
    exact regsF_iJrdd g
  rw [if_neg h5]
  by_cases h6 : (op == 0xCD) = true
  · rw [if_pos h6]
    exact regsF_iCallNN g
  rw [if_neg h6]
  by_cases h7 : instrLeftR op 0xC4 3 = true
  · rw [if_pos h7]
    exact regsF_iCallFnn g op
  rw [if_neg h7]
  by_cases h8 : (op == 0xC9) = true
  · rw [if_pos h8]
    exact regsF_iRet g
  rw [if_neg h8]
  by_cases h9 : instrLeftR op 0xC0 3 = true
  · rw [if_pos h9]
    exact regsF_iRetF g op
  rw [if_neg h9]
  by_cases h10 : (op == 0xD9) = true
  · rw [if_pos h10]
    exact regsF_iReti g
  rw [if_neg h10]
  by_cases h11 : instrRst op = true
  · rw [if_pos h11]
    exact regsF_iRst g
  rw [if_neg h11]

set_option maxRecDepth 8000 in
theorem execOpCpuCtl_F (g : GB) (op : Nat) :
    (execOpCpuCtl g op).2.regs 7 % 16 = g.regs 7 % 16 := by
  delta execOpCpuCtl
  by_cases h1 : (op == 0x3F) = true
  · rw [if_pos h1]
    exact regsF_iCcf g
  rw [if_neg h1]
  by_cases h2 : (op == 0x37) = true
  · rw [if_pos h2]
    exact regsF_iScf g
  rw [if_neg h2]
  by_cases h3 : (op == 0x76) = true
  · rw [if_pos h3]
    exact regsF_iHalt g
  rw [if_neg h3]
  by_cases h4 : (op == 0x10) = true
  · rw [if_pos h4]
    exact regsF_iStop g
  rw [if_neg h4]
  by_cases h5 : (op == 0xF3) = true
  · rw [if_pos h5]
    exact regsF_iDi g
  rw [if_neg h5]
  by_cases h6 : (op == 0xFB) = true
  · rw [if_pos h6]
    exact regsF_iEi g
  rw [if_neg h6]
  exact execOpJump_F g op

set_option maxRecDepth 8000 in
theorem execOpRotShift_F (g : GB) (op : Nat) :
    (execOpRotShift g op).2.regs 7 % 16 = g.regs 7 % 16 := by
  delta execOpRotShift
  by_cases h1 : (op == 0x07) = true
  · rw [if_pos h1]
    exact regsF_iRlca g
  rw [if_neg h1]
  by_cases h2 : (op == 0x17) = true
  · rw [if_pos h2]
    exact regsF_iRla g
  rw [if_neg h2]
  by_cases h3 : (op == 0x1F) = true
  · rw [if_pos h3]
    exact regsF_iRra g
  rw [if_neg h3]
  exact execOpCpuCtl_F g op

set_option maxRecDepth 8000 in
theorem execOpArith16_F (g : GB) (op : Nat)
    (h70 : ¬ instrRightR op 0x70 = true) :
    (execOpArith16 g op).2.regs 7 % 16 = g.regs 7 % 16 := by
  delta execOpArith16
  by_cases h1 : instrLeftR op 0x01 4 = true
  · rw [if_pos h1]
    exact regsF_iLdRRnn g op h1 h70
  rw [if_neg h1]
  by_cases h2 : instrLeftR op 0xC5 4 = true
  · rw [if_pos h2]
    exact regsF_iPushRR g op
  rw [if_neg h2]
  by_cases h3 : instrLeftR op 0xC1 4 = true
  · rw [if_pos h3]
    exact regsF_iPopRR g op
  rw [if_neg h3]
  by_cases h4 : instrLeftR op 0x09 4 = true
  · rw [if_pos h4]
    exact regsF_iAddHLRR g op
  rw [if_neg h4]
  by_cases h5 : instrLeftR op 0x03 4 = true
  · rw [if_pos h5]
    exact regsF_iIncRR g op
  rw [if_neg h5]
  by_cases h6 : instrLeftR op 0x0B 4 = true
  · rw [if_pos h6]
    exact regsF_iDecRR g op
  rw [if_neg h6]
  by_cases h7 : (op == 0xE8) = true
  · rw [if_pos h7]
    exact regsF_iAddSPdd g
  rw [if_neg h7]
  exact execOpRotShift_F g op

set_option maxRecDepth 8000 in
theorem execOpArith8_F (g : GB) (op : Nat)
    (h70 : ¬ instrRightR op 0x70 = true) :
    (execOpArith8 g op).2.regs 7 % 16 = g.regs 7 % 16 := by
  delta execOpArith8
  by_cases h1 : instrRightR op 0x80 = true
  · rw [if_pos h1]
    exact regsF_iAddAR g op
  rw [if_neg h1]
  by_cases h2 : (op == 0xC6) = true
  · rw [if_pos h2]
    exact regsF_iAddAn g
  rw [if_neg h2]
  by_cases h3 : instrRightR op 0x88 = true
  · rw [if_pos h3]
    exact regsF_iAdcAR g op
  rw [if_neg h3]
  by_cases h4 : (op == 0x86) = true
  · rw [if_pos h4]
    exact regsF_iAddAPtrHL g
  rw [if_neg h4]
  by_cases h5 : (op == 0x8E) = true
  · rw [if_pos h5]
    exact regsF_iAdcAPtrHL g
  rw [if_neg h5]
  by_cases h6 : instrRightR op 0x90 = true
  · rw [if_pos h6]
    exact regsF_iSubAR g op
  rw [if_neg h6]
  by_cases h7 : (op == 0xD6) = true
  · rw [if_pos h7]
    exact regsF_iSubAn g
  rw [if_neg h7]
  by_cases h8 : instrRightR op 0x98 = true
  · rw [if_pos h8]
    exact regsF_iSbcAR g op
  rw [if_neg h8]
  by_cases h9 : (op == 0x9E) = true
  · rw [if_pos h9]
    exact regsF_iSbcAPtrHL g
  rw [if_neg h9]
  by_cases h10 : instrRightR op 0xA0 = true
  · rw [if_pos h10]
    exact regsF_iAndAR g op
  rw [if_neg h10]
  by_cases h11 : (op == 0xE6) = true
  · rw [if_pos h11]
    exact regsF_iAndAn g
  rw [if_neg h11]
  by_cases h12 : (op == 0xF6) = true
  · rw [if_pos h12]
    exact regsF_iOrAn g
  rw [if_neg h12]
  by_cases h13 : (op == 0xB6) = true
  · rw [if_pos h13]
    exact regsF_iOrAPtrHL g
  rw [if_neg h13]
  by_cases h14 : instrRightR op 0xA8 = true
  · rw [if_pos h14]
    exact regsF_iXorAR g op
  rw [if_neg h14]
  by_cases h15 : (op == 0xAE) = true
  · rw [if_pos h15]
    exact regsF_iXorAPtrHL g
  rw [if_neg h15]
  by_cases h16 : instrRightR op 0xB0 = true
  · rw [if_pos h16]
    exact regsF_iOrAR g op
  rw [if_neg h16]
  by_cases h17 : instrRightR op 0xB8 = true
  · rw [if_pos h17]
    exact regsF_iCpAR g op
  rw [if_neg h17]
  by_cases h18 : (op == 0xFE) = true
  · rw [if_pos h18]
    exact regsF_iCpAn g
  rw [if_neg h18]
  by_cases h19 : (op == 0xBE) = true
  · rw [if_pos h19]
    exact regsF_iCpAPtrHL g
  rw [if_neg h19]
  by_cases h20 : instrLeftR op 0x4 3 = true
  · rw [if_pos h20]
    exact regsF_iIncR g op
  rw [if_neg h20]
  by_cases h21 : (op == 0x34) = true
  · rw [if_pos h21]
    exact regsF_iIncPtrHL g
  rw [if_neg h21]
  by_cases h22 : instrLeftR op 0x5 3 = true
  · rw [if_pos h22]
    exact regsF_iDecR g op
  rw [if_neg h22]
  by_cases h23 : (op == 0x35) = true
  · rw [if_pos h23]
    exact regsF_iDecPtrHL g
  rw [if_neg h23]
  by_cases h24 : (op == 0x27) = true
  · rw [if_pos h24]
    exact regsF_iDaa g
  rw [if_neg h24]
  by_cases h25 : (op == 0x2F) = true
  · rw [if_pos h25]
    exact regsF_iCpl g
  rw [if_neg h25]
  exact execOpArith16_F g op h70

set_option maxRecDepth 8000 in
theorem execOp_F (g : GB) (op : Nat) :
    (execOp g op).2.regs 7 % 16 = g.regs 7 % 16 := by
  delta execOp
  by_cases h1 : (op == 0x00) = true
  · rw [if_pos h1]
  rw [if_neg h1]
  by_cases h2 : (op == 0x08) = true
  · rw [if_pos h2]
    exact regsF_iLdNNSP g
  rw [if_neg h2]
  by_cases h3 : instrLdRR op 0x40 3 = true
  · rw [if_pos h3]
    exact regsF_iLdRR g op
  rw [if_neg h3]
  by_cases h4 : instrLeftR op 0x6 3 = true
  · rw [if_pos h4]
    exact regsF_iLdRn g op
  rw [if_neg h4]
  by_cases h5 : (op == 0x12) = true
  · rw [if_pos h5]
    exact regsF_iLdPtrDEA g
  rw [if_neg h5]
  by_cases h6 : (op == 0xF0) = true
  · rw [if_pos h6]
    exact regsF_iLdAIOn g
  rw [if_neg h6]
  by_cases h7 : (op == 0xE0) = true
  · rw [if_pos h7]
    exact regsF_iLdIOnA g
  rw [if_neg h7]
  by_cases h8 : (op == 0xE2) = true
  · rw [if_pos h8]
    exact regsF_iLdIOCA g
  rw [if_neg h8]
  by_cases h9 : (op == 0x2A) = true
  · rw [if_pos h9]
    exact regsF_iLdiAPtrHL g
  rw [if_neg h9]
  by_cases h10 : (op == 0x22) = true
  · rw [if_pos h10]
    exact regsF_iLdiPtrHLA g
  rw [if_neg h10]
  by_cases h11 : (op == 0x32) = true
  · rw [if_pos h11]
    exact regsF_iLddPtrHLA g
  rw [if_neg h11]
  by_cases h12 : instrLeftR op 0x46 3 = true
  · rw [if_pos h12]
    exact regsF_iLdRPtrHL g op
  rw [if_neg h12]
  by_cases h13 : instrRightR op 0x70 = true
  · rw [if_pos h13]
    exact regsF_iLdPtrHLR g op
  rw [if_neg h13]
  by_cases h14 : (op == 0x36) = true
  · rw [if_pos h14]
    exact regsF_iLdPtrHLn g
  rw [if_neg h14]
  by_cases h15 : (op == 0x0A) = true
  · rw [if_pos h15]
    exact regsF_iLdAPtrBC g
  rw [if_neg h15]
  by_cases h16 : (op == 0x1A) = true
  · rw [if_pos h16]
    exact regsF_iLdAPtrDE g
  rw [if_neg h16]
  by_cases h17 : (op == 0xFA) = true
  · rw [if_pos h17]
    exact regsF_iLdAPtrnn g
  rw [if_neg h17]
  by_cases h18 : (op == 0x02) = true
  · rw [if_pos h18]
    exact regsF_iLdPtrBCA g
  rw [if_neg h18]
  by_cases h19 : (op == 0xEA) = true
  · rw [if_pos h19]
    exact regsF_iLdPtrnnA g
  rw [if_neg h19]
  exact execOpArith8_F g op h13

set_option maxRecDepth 8000 in
theorem doInstruction_F (g : GB) :
    (doInstruction g).2.regs 7 % 16 = g.regs 7 % 16 := by
  delta doInstruction
  dsimp only
  split
  · rw [doCBInstruction_F, regs7_fetchByte]
  · rw [execOp_F, regs7_fetchByte]


/-! ### Supporting computation lemmas for the claims -/

theorem and255_mod (y : Nat) : y &&& 255 = y % 256 := by
  have h := Nat.and_pow_two_sub_one_eq_mod y 8
  simpa using h

theorem or_one_mod_two (x : Nat) : (x ||| 1) % 2 = 1 := by
  rw [← and1_mod, natOrAndRight]
  rcases Nat.mod_two_eq_zero_or_one x with h | h <;> rw [and1_mod, h] <;> decide

theorem shl8_shr8 (x w : Nat) (hx : x < 256) : (x ||| w <<< 8) >>> 8 = w := by
  apply Nat.eq_of_testBit_eq
  intro i
  rw [Nat.testBit_shiftRight, Nat.testBit_or, Nat.testBit_shiftLeft]
  have hxb : x.testBit (8 + i) = false :=
    Nat.testBit_lt_two_pow (lt_of_lt_of_le hx (by
      calc (256 : Nat) = 2 ^ 8 := by norm_num
        _ ≤ 2 ^ (8 + i) := Nat.pow_le_pow_right (by norm_num) (by omega)))
  simp [hxb, Nat.add_sub_cancel_left]

theorem writes_writeMem (g : GB) (a v : Nat) :
    (writeMem g a v).writes = (a % 65536, v % 256) :: g.writes := by
  simp only [writeMem, writeMemRomOnly]
  split
  · split
    · split <;> rfl
    · rfl
  · rfl

theorem writes_fetchByte (g : GB) : (fetchByte g).2.writes = g.writes := rfl

theorem writes_fetchWord (g : GB) : (fetchWord g).2.writes = g.writes := rfl

theorem cart_writeMemRomOnly (g : GB) (a v : Nat) :
    (writeMemRomOnly g a v).cart = g.cart := by
  simp only [writeMemRomOnly]
  split
  · split <;> rfl
  · rfl

theorem cart_writeMem (g : GB) (a v : Nat) : (writeMem g a v).cart = g.cart := by
  simp only [writeMem]
  split <;> simp [cart_writeMemRomOnly]

theorem mem_writeMem_store (g : GB) (a v : Nat)
    (hrom : g.cart 0x147 % 256 = 0)
    (h8 : 0x8000 ≤ a % 65536) (h44 : a % 65536 ≠ 0xFF44) :
    (writeMem g a v).mem (a % 65536 - 0x8000) = v % 256 := by
  simp only [writeMem, writeMemRomOnly, CART_TYPE_ROM_ONLY]
  rw [if_pos hrom, if_pos h8, if_neg h44]
  simp [updFn_eq]

theorem mem50_writeMem (g : GB) (a v : Nat)
    (hav : a % 65536 = 0xFF50 → v % 256 ≠ 0)
    (h : g.mem 0x7F50 % 256 ≠ 0) :
    (writeMem g a v).mem 0x7F50 % 256 ≠ 0 := by
  simp only [writeMem, writeMemRomOnly]
  split
  · split
    · split
      case isTrue h44 =>
        have : (0x7F50 : Nat) ≠ a % 65536 - 0x8000 := by omega
        simpa [updFn_eq, this] using h
      case isFalse h44 =>
        rcases eq_or_ne (a % 65536) 0xFF50 with h50 | h50
        · have hidx : a % 65536 - 0x8000 = 0x7F50 := by omega
          dsimp only
          rw [hidx, updFn_eq, if_pos rfl, Nat.mod_mod_of_dvd _ (dvd_refl 256)]
          exact hav h50
        · have : (0x7F50 : Nat) ≠ a % 65536 - 0x8000 := by
            rename_i h8a _
            omega
          simpa [updFn_eq, this] using h
    · exact h
  · exact h

theorem latch_applyWrites (ws : List (Nat × Nat)) : ∀ g : GB,
    g.mem 0x7F50 % 256 ≠ 0 →
    (∀ p ∈ ws, p.1 % 65536 = 0xFF50 → p.2 % 256 ≠ 0) →
    (applyWrites g ws).cart = g.cart ∧ (applyWrites g ws).mem 0x7F50 % 256 ≠ 0 := by
  induction ws with
  | nil => exact fun g h _ => ⟨rfl, h⟩
  | cons p ws ih =>
    intro g h hws
    have h1 := mem50_writeMem g p.1 p.2 (hws p (by simp)) h
    have h2 := ih (writeMem g p.1 p.2) h1 (fun q hq => hws q (by simp [hq]))
    exact ⟨by rw [show applyWrites g (p :: ws) = applyWrites (writeMem g p.1 p.2) ws from rfl,
                  h2.1, cart_writeMem], h2.2⟩

theorem readMem_mem (g : GB) (a : Nat) (h : 0x8000 ≤ a) (h2 : a < 65536) :
    readMem g a = g.mem (a - 0x8000) % 256 := by
  simp only [readMem]
  rw [Nat.mod_eq_of_lt h2, if_pos h]

theorem get8Reg_set8Reg_A (g : GB) (v : Nat) :
    get8Reg (set8Reg g 7 v) 7 = v % 256 := by
  simp only [set8Reg, get8Reg]
  norm_num [updFn_eq]
  rw [and255_mod, shl8_shr8 _ _ (by rw [and255_mod]; omega)]
  omega


/-! ### Concrete machine states used to evidence the claims -/

/-- C1 state: instruction boundary with IME set, IE = IF = $01 (VBlank
pending and enabled), SP = $FFFE, PC = $1234, CPU halted, ROM_ONLY cart. -/
def gbC1 : GB :=
  { regs := fun i => if i = 3 then 0xFFFE else if i = 4 then 0x1234 else 0,
    IME := true, halted := true,
    mem := fun j => if j = 0x7FFF then 1 else if j = 0x7F0F then 1 else 0,
    cart := fun _ => 0, cartSize := 0x8000, bootRom := fun _ => 0, writes := [] }

/-- C1 (code bug): servicing the pending VBlank interrupt from `gbC1`
jumps to $0040, clears the IF bit, decrements SP by 2 and wakes the CPU,
but it does NOT clear IME (it stays `true`), and it pushes PC's low byte
to the original SP ($FFFE), not to SP-2 ($FFFC), which stays untouched.
The claim requires IME cleared and the low byte at SP-2. -/
theorem C1_interrupt_service_divergence :
    (interruptStep gbC1).IME = true ∧
    (interruptStep gbC1).regs 4 = 0x40 ∧
    (interruptStep gbC1).regs 3 = 0xFFFC ∧
    readMem (interruptStep gbC1) 0xFFFD = 0x12 ∧
    readMem (interruptStep gbC1) 0xFFFE = 0x34 ∧
    readMem (interruptStep gbC1) 0xFFFC = 0x00 ∧
    readMem (interruptStep gbC1) 0xFF0F = 0 ∧
    (interruptStep gbC1).halted = false := by
  decide

/-- C2 state a: F = $00 (carry clear, bit 4 clear), JR C,+5 at $0200. -/
def gbC2a : GB :=
  { regs := fun i => if i = 4 then 0x0200 else 0,
    IME := false, halted := false, mem := fun _ => 1,
    cart := fun a => if a = 0x0200 then 0x38 else if a = 0x0201 then 0x05 else 0,
    cartSize := 0x8000, bootRom := fun _ => 0, writes := [] }

/-- C2 state b: F = $10 (carry set, bit 4 set), JR NC,+5 at $0200. -/
def gbC2b : GB :=
  { regs := fun i => if i = 4 then 0x0200 else if i = 7 then 0x0010 else 0,
    IME := false, halted := false, mem := fun _ => 1,
    cart := fun a => if a = 0x0200 then 0x30 else if a = 0x0201 then 0x05 else 0,
    cartSize := 0x8000, bootRom := fun _ => 0, writes := [] }

/-- C2 (code bug): with the carry flag (bit 4 of F) CLEAR, `JR C,+5`
takes the branch (PC ends at $0207, not $0202): `CheckFlag`'s C case is
the always-true `(AF & 0x8) >= 0`.  With the carry flag SET, `JR NC,+5`
also takes the branch: the NC case reads bit 3 instead of bit 4.  The
claim requires condition C/NC to follow bit 4, i.e. PC = $0202 in both
runs. -/
theorem C2_condition_codes_divergence :
    (doInstruction gbC2a).2.regs 4 = 0x0207 ∧
    (doInstruction gbC2b).2.regs 4 = 0x0207 := by
  decide

/-- C3 state: A = $57 (AF = $5700), opcode $AF then byte $99 at $1000. -/
def gbC3 : GB :=
  { regs := fun i => if i = 4 then 0x1000 else if i = 7 then 0x5700 else 0,
    IME := false, halted := false, mem := fun _ => 1,
    cart := fun a => if a = 0x1000 then 0xAF else if a = 0x1001 then 0x99 else 0,
    cartSize := 0x8000, bootRom := fun _ => 0, writes := [] }

/-- C3 (code bug): executing opcode $AF from A = $57 leaves A = $57 and
F = $00 and instead loads the next byte ($99) into L, consuming two
bytes: the `instr_left_r(opcode, 0x6, 3)` guard ("ld r,n") matches $AF
before the "xor a,r" branch is reached.  The claim requires A = $00 and
F = $80. -/
theorem C3_xor_a_divergence :
    get8Reg (doInstruction gbC3).2 7 = 0x57 ∧
    (doInstruction gbC3).2.regs 7 = 0x5700 ∧
    get8Reg (doInstruction gbC3).2 5 = 0x99 ∧
    (doInstruction gbC3).2.regs 4 = 0x1002 := by
  decide

/-- C4 state: SP = $FFFE, PC = $1000, bytes $CD $00 $20 at $1000. -/
def gbC4 : GB :=
  { regs := fun i => if i = 3 then 0xFFFE else if i = 4 then 0x1000 else 0,
    IME := false, halted := false, mem := fun _ => 0,
    cart := fun a =>
      if a = 0x1000 then 0xCD else if a = 0x1001 then 0x00
      else if a = 0x1002 then 0x20 else 0,
    cartSize := 0x8000, bootRom := fun _ => 0, writes := [] }

/-- C4 (code bug): opcode $CD never reaches the "call nn" branch: the
"ld r,r" guard `(opcode & 0x40) == 0x40` matches $CD first (dst = C,
src = L).  After one step PC = $1001 and SP = $FFFE; nothing is pushed
(the write trace is empty and $FFFC/$FFFD still hold 0).  The claim
requires SP = $FFFC, mem[$FFFC] = $03, mem[$FFFD] = $10, PC = $2000. -/
theorem C4_call_ret_divergence :
    (doInstruction gbC4).2.regs 3 = 0xFFFE ∧
    (doInstruction gbC4).2.regs 4 = 0x1001 ∧
    readMem (doInstruction gbC4).2 0xFFFC = 0x00 ∧
    readMem (doInstruction gbC4).2 0xFFFD = 0x00 ∧
    (doInstruction gbC4).2.writes = [] := by
  decide

/-- C5 state: BC = $0100, HL = $0000, bytes $C5 (PUSH BC) then $C1
(POP BC) at $0400. -/
def gbC5 : GB :=
  { regs := fun i => if i = 0 then 0x0100 else if i = 4 then 0x0400 else 0,
    IME := false, halted := false, mem := fun _ => 0,
    cart := fun a => if a = 0x0400 then 0xC5 else if a = 0x0401 then 0xC1 else 0,
    cartSize := 0x8000, bootRom := fun _ => 0, writes := [] }

/-- C5 (code bug): $C5/$C1 are swallowed by the "ld r,r" guard (they
execute LD B,L and LD B,C), so PUSH BC; POP BC from BC = $0100 leaves
BC = $0000 — the pair is not restored — and no bus write ever happens.
-/
theorem C5_push_pop_divergence :
    (doInstruction (doInstruction gbC5).2).2.regs 0 = 0x0000 ∧
    gbC5.regs 0 = 0x0100 ∧
    (doInstruction (doInstruction gbC5).2).2.writes = [] := by
  decide

/-- C6 counterexample state: boot ROM byte $AA at $0000, cartridge byte
$BB at $0000, ROM_ONLY cart, boot latch initially unset. -/
def gbC6 : GB :=
  { regs := fun _ => 0, IME := false, halted := false, mem := fun _ => 0,
    cart := fun a => if a = 0 then 0xBB else 0, cartSize := 0x8000,
    bootRom := fun _ => 0xAA, writes := [] }

/-- C6 counterexample: after writing the non-zero value $01 to $FF50 a
read of $0000 does return the cartridge byte, but a later write of $00
to $FF50 re-enables the boot ROM: the next read of $0000 returns the
boot-ROM byte $AA again, so the latch is neither one-shot nor monotonic
for the remainder of the run. -/
theorem C6_boot_latch_counterexample :
    readMem (writeMem gbC6 0xFF50 0x01) 0x0000 = 0xBB ∧
    readMem (writeMem (writeMem gbC6 0xFF50 0x01) 0xFF50 0x00) 0x0000 = 0xAA ∧
    gbC6.cart 0 = 0xBB ∧ (0xAA : Nat) ≠ 0xBB := by
  decide

/-- C6 (amended): the boot latch is level-sensitive, not one-shot: after
a non-zero byte is written to $FF50, reads of $0000-$00FF return
cartridge bank-0 bytes for as long as every further write to $FF50
stores a non-zero byte; a zero write would re-enable the boot ROM. -/
theorem C6_boot_latch_level (gb : GB) (ws : List (Nat × Nat)) (addr v : Nat)
    (hrom : gb.cart 0x147 % 256 = 0)
    (hv : v % 256 ≠ 0)
    (haddr : addr ≤ 0xFF)
    (hws : ∀ p ∈ ws, p.1 % 65536 = 0xFF50 → p.2 % 256 ≠ 0) :
    readMem (applyWrites (writeMem gb 0xFF50 v) ws) addr = gb.cart addr % 256 := by
  have h0 : (writeMem gb 0xFF50 v).mem 0x7F50 % 256 ≠ 0 := by
    have hs := mem_writeMem_store gb 0xFF50 v hrom (by norm_num) (by norm_num)
    norm_num at hs
    rw [hs, Nat.mod_mod_of_dvd _ (dvd_refl 256)]
    exact hv
  have hinv := latch_applyWrites ws (writeMem gb 0xFF50 v) h0 hws
  simp only [readMem]
  rw [show addr % 65536 = addr from Nat.mod_eq_of_lt (by omega)]
  rw [if_neg (show ¬ (0x8000 : Nat) ≤ addr by omega)]
  rw [if_neg (show ¬ (addr ≤ 0xFF ∧
        (applyWrites (writeMem gb 0xFF50 v) ws).mem (0xFF50 - 0x8000) % 256 = 0) from
      fun hc => hinv.2 hc.2)]
  rw [if_neg (show ¬ ((0x4000 : Nat) ≤ addr ∧ addr ≤ 0x7FFF) by omega)]
  rw [hinv.1, cart_writeMem]

/-- C6 witness state for the amended theorem. -/
def gbW6 : GB :=
  { regs := fun _ => 0, IME := false, halted := false, mem := fun _ => 0,
    cart := fun a => if a = 0 then 0xBB else 0, cartSize := 0x8000,
    bootRom := fun _ => 0xAA, writes := [] }

theorem C6_boot_latch_level_witness :
    readMem (applyWrites (writeMem gbW6 0xFF50 1) [(0xFF00, 0x05), (0x1234, 0x77)]) 0
      = gbW6.cart 0 % 256 :=
  C6_boot_latch_level gbW6 [(0xFF00, 0x05), (0x1234, 0x77)] 0 1
    (by decide) (by decide) (by decide) (by decide)

/-- C7 (confirmed): one pass of the frame-timing LY block leaves LY at
most 153; whenever the incremented LY is exactly 144 the stored IF byte
has bit 0 set; and whenever the incremented LY is 154 the stored LY is
0. -/
theorem C7_ly_vblank_timing (gb : GB) (hrom : gb.cart 0x147 % 256 = 0) :
    readMem (lyStep gb) 0xFF44 ≤ 153 ∧
    ((readMem gb 0xFF44 + 1) % 256 = 144 → readMem (lyStep gb) 0xFF0F % 2 = 1) ∧
    ((readMem gb 0xFF44 + 1) % 256 = 154 → readMem (lyStep gb) 0xFF44 = 0) := by
  have hmem44 : (lyStep gb).mem 0x7F44 =
      (if 153 < (readMem gb 0xFF44 + 1) % 256 then 0 else (readMem gb 0xFF44 + 1) % 256) := by
    simp [lyStep, updFn_eq]
  have h44 : readMem (lyStep gb) 0xFF44 =
      (if 153 < (readMem gb 0xFF44 + 1) % 256 then 0 else (readMem gb 0xFF44 + 1) % 256) := by
    rw [readMem_mem _ _ (by norm_num) (by norm_num)]
    norm_num [hmem44]
    split <;> omega
  refine ⟨by rw [h44]; split <;> omega, ?_, by intro h; rw [h44, h]; norm_num⟩
  intro h
  have hmem0F : (lyStep gb).mem 0x7F0F = (readMem gb 0xFF0F ||| 1) % 256 := by
    have hst := mem_writeMem_store gb 0xFF0F (readMem gb 0xFF0F ||| 1) hrom
      (by norm_num) (by norm_num)
    norm_num at hst
    simp [lyStep, updFn_eq, h, hst]
  rw [readMem_mem _ _ (by norm_num) (by norm_num)]
  rw [show (0xFF0F : Nat) - 0x8000 = 0x7F0F from by norm_num, hmem0F]
  rw [Nat.mod_mod_of_dvd _ (dvd_refl 256),
      Nat.mod_mod_of_dvd _ (show (2:Nat) ∣ 256 from by norm_num), or_one_mod_two]

/-- C7 witness state: LY = 143, ROM_ONLY cart, IF = 0. -/
def gbW7 : GB :=
  { regs := fun _ => 0, IME := false, halted := false,
    mem := fun j => if j = 0x7F44 then 143 else 0,
    cart := fun _ => 0, cartSize := 0x8000, bootRom := fun _ => 0, writes := [] }

theorem C7_ly_vblank_timing_witness :
    readMem (lyStep gbW7) 0xFF44 ≤ 153 ∧
    ((readMem gbW7 0xFF44 + 1) % 256 = 144 → readMem (lyStep gbW7) 0xFF0F % 2 = 1) ∧
    ((readMem gbW7 0xFF44 + 1) % 256 = 154 → readMem (lyStep gbW7) 0xFF44 = 0) :=
  C7_ly_vblank_timing gbW7 (by decide)

/-- C8 state: IME = false, DE = $00AB, AF = $CD00, opcode $FB (EI) at
$0300, with a pending enabled VBlank interrupt (IE = IF = $01). -/
def gbC8 : GB :=
  { regs := fun i =>
      if i = 1 then 0x00AB else if i = 4 then 0x0300 else if i = 7 then 0xCD00 else 0,
    IME := false, halted := false,
    mem := fun j => if j = 0x7FFF then 1 else if j = 0x7F0F then 1 else 0,
    cart := fun a => if a = 0x0300 then 0xFB else 0,
    cartSize := 0x8000, bootRom := fun _ => 0, writes := [] }

/-- C8 (code bug): opcode $FB is decoded by the "ld r,r" guard as
LD A,E, so "EI" loads E ($AB) into A and leaves IME false; the pending,
enabled VBlank interrupt is then NOT dispatched at the following
instruction boundary (PC stays $0301, IME stays false, IF keeps bit 0).
Even the unreachable `ei` branch would set IME immediately rather than
after one instruction.  The claim requires the handler to run after the
instruction following EI. -/
theorem C8_ei_divergence :
    (doInstruction gbC8).2.IME = false ∧
    get8Reg (doInstruction gbC8).2 7 = 0xAB ∧
    (doInstruction gbC8).2.regs 4 = 0x0301 ∧
    (interruptStep (doInstruction gbC8).2).IME = false ∧
    (interruptStep (doInstruction gbC8).2).regs 4 = 0x0301 ∧
    readMem (interruptStep (doInstruction gbC8).2) 0xFF0F = 1 := by
  decide

/-- C9 (confirmed): every instruction - CB-prefixed or not, decoded or
invalid - leaves the low nibble of F (the low byte of AF) zero whenever
it was zero before the instruction executed. -/
theorem C9_flag_low_nibble_invariant (gb : GB) (h : gb.regs 7 % 16 = 0) :
    (doInstruction gb).2.regs 7 % 16 = 0 := by
  rw [doInstruction_F, h]

/-- C9 witness state: the post-boot register snapshot with AF = $01B0
(low nibble of F zero), NOP at PC. -/
def gbW9 : GB :=
  { regs := fun i =>
      if i = 0 then 0x0013 else if i = 1 then 0x00D8 else if i = 2 then 0x014D
      else if i = 3 then 0xFFFE else if i = 4 then 0x0100 else if i = 7 then 0x01B0 else 0,
    IME := false, halted := false, mem := fun _ => 0,
    cart := fun _ => 0, cartSize := 0x8000, bootRom := fun _ => 0, writes := [] }

theorem C9_flag_low_nibble_invariant_witness :
    gbW9.regs 7 % 16 = 0 ∧ (doInstruction gbW9).2.regs 7 % 16 = 0 :=
  ⟨by decide, C9_flag_low_nibble_invariant gbW9 (by decide)⟩

/-- C10 counterexample state: SP = $ABCD, bytes $08 $FF $12
(LD ($12FF),SP) at $1000, ROM_ONLY cart. -/
def gbC10 : GB :=
  { regs := fun i => if i = 3 then 0xABCD else if i = 4 then 0x1000 else 0,
    IME := false, halted := false, mem := fun _ => 0,
    cart := fun a =>
      if a = 0x1000 then 0x08 else if a = 0x1001 then 0xFF
      else if a = 0x1002 then 0x12 else 0,
    cartSize := 0x8000, bootRom := fun _ => 0, writes := [] }

/-- C10 counterexample: executing LD (nn),SP with operand $12FF issues
its second bus write at address $0100, outside $0000-$00FF (the
truncated base $FF plus one), refuting the claim that every address
written lies in $0000-$00FF. -/
theorem C10_second_write_escapes_low_page :
    (doInstruction gbC10).2.writes = [(0x100, 0xCD), (0xFF, 0xAB)] ∧
    ¬ (0x100 ≤ 0xFF) := by
  decide

/-- C10 (amended): the 16-bit operands of LD (nn),SP, JP cc,nn and
LD A,(nn) are truncated to their low byte before use.  LD (nn),SP issues
exactly two writes, at a base address ≤ $FF and at base+1 (which can be
$0100); a taken JP cc,nn always lands at a PC ≤ $FF; and LD A,(nn)
always reads from the ≤ $FF window, so with the boot ROM still mapped it
loads a boot-ROM byte regardless of the operand's high byte. -/
theorem C10_operand_truncation :
    (∀ g : GB, ∃ a hi lo, a ≤ 0xFF ∧
        (iLdNNSP g).writes = (a + 1, lo) :: (a, hi) :: g.writes) ∧
    (∀ (g : GB) (op : Nat), checkFlag (fetchWord g).2 ((op >>> 3) &&& 0b11) = true →
        (iJpFnn g op).regs 4 ≤ 0xFF) ∧
    (∀ g : GB, (fetchWord g).2.mem (0xFF50 - 0x8000) % 256 = 0 →
        get8Reg (iLdAPtrnn g) 7 = (fetchWord g).2.bootRom ((fetchWord g).1 % 256) % 256) := by
  refine ⟨?_, ?_, ?_⟩
  · intro g
    have e1 : ((fetchWord g).1 % 256) % 65536 = (fetchWord g).1 % 256 :=
      Nat.mod_eq_of_lt (by omega)
    have e2 : ((fetchWord g).1 % 256 + 1) % 65536 = (fetchWord g).1 % 256 + 1 :=
      Nat.mod_eq_of_lt (by omega)
    refine ⟨(fetchWord g).1 % 256, ((fetchWord g).2.regs 3 >>> 8) % 256,
      ((fetchWord g).2.regs 3 &&& 0xFF) % 256, by omega, ?_⟩
    simp only [iLdNNSP, writes_writeMem, regs_writeMem, writes_fetchWord, e1, e2]
  · intro g op h
    unfold iJpFnn
    dsimp only
    rw [if_pos h]
    show updFn (fetchWord g).2.regs 4 ((fetchWord g).1 % 256) 4 ≤ 0xFF
    rw [updFn_eq, if_pos rfl]
    omega
  · intro g hb
    unfold iLdAPtrnn
    dsimp only
    rw [get8Reg_set8Reg_A]
    have hr : readMem (fetchWord g).2 ((fetchWord g).1 % 256) =
        (fetchWord g).2.bootRom ((fetchWord g).1 % 256) % 256 := by
      have ha : (fetchWord g).1 % 256 % 65536 = (fetchWord g).1 % 256 :=
        Nat.mod_eq_of_lt (by omega)
      simp only [readMem, ha]
      rw [if_neg (show ¬ (0x8000 : Nat) ≤ (fetchWord g).1 % 256 by omega)]
      rw [if_pos (show (fetchWord g).1 % 256 ≤ 0xFF ∧
            (fetchWord g).2.mem (0xFF50 - 0x8000) % 256 = 0 from ⟨by omega, hb⟩)]
      rw [Nat.mod_mod_of_dvd _ (dvd_refl 256)]
    rw [hr, Nat.mod_mod_of_dvd _ (dvd_refl 256)]

/-- C10 witness state: PC = $0500, operand bytes $34 $12, boot latch
unset, boot ROM filled with $7E. -/
def gbW10 : GB :=
  { regs := fun i => if i = 4 then 0x0500 else if i = 3 then 0xBEEF else 0,
    IME := false, halted := false, mem := fun _ => 0,
    cart := fun a => if a = 0x0500 then 0x34 else if a = 0x0501 then 0x12 else 0,
    cartSize := 0x8000, bootRom := fun _ => 0x7E, writes := [] }

theorem C10_operand_truncation_witness :
    (∃ a hi lo, a ≤ 0xFF ∧
        (iLdNNSP gbW10).writes = (a + 1, lo) :: (a, hi) :: gbW10.writes) ∧
    (iJpFnn gbW10 0xDA).regs 4 ≤ 0xFF ∧
    get8Reg (iLdAPtrnn gbW10) 7 = (fetchWord gbW10).2.bootRom ((fetchWord gbW10).1 % 256) % 256 :=
  ⟨C10_operand_truncation.1 gbW10,
   C10_operand_truncation.2.1 gbW10 0xDA (by decide),
   C10_operand_truncation.2.2 gbW10 (by decide)⟩

end PcGb
